import Mathlib

/-!
Verification of the Popcorn Palace movie-ticket booking backend.

Two implementation variants of the backend are embedded:

* `VariantA` : movies are identified by (title, release year), showtimes are created
  from a movie title and year, and seat reservations are `Ticket` rows carrying a
  customer name.  Times are HH:mm strings.  Field names are snake_case, matching
  the entities of this variant.
* `VariantB` : movies are identified by their normalized title, seat reservations are
  `Booking` rows carrying a userId, and showtimes are referenced by id.

Database tables are embedded as Lean lists, SQL queries as list traversals, and
each service method as a function from a state and a request DTO to either an
error or the successor state.  A thrown exception corresponds to an `Except.error`
result: the service aborts before reaching its INSERT/UPDATE statement, so an
error leaves the state unchanged.
-/

/-- Embedding of JS String.prototype.toLowerCase and SQL LOWER: lowercase every
character of the string. -/
def toLowerCase (s : String) : String :=
  String.mk (s.data.map Char.toLower)

/-- Drop whitespace from both ends of a character list. -/
def trimChars (l : List Char) : List Char :=
  ((l.dropWhile Char.isWhitespace).reverse.dropWhile Char.isWhitespace).reverse

/-- Embedding of JS String.prototype.trim: drop whitespace from both ends. -/
def trimString (s : String) : String :=
  String.mk (trimChars s.data)

/-- The trim-then-lowercase normalization the services apply to titles, theater
names and customer names. -/
def normName (s : String) : String :=
  toLowerCase (trimString s)

/-- Lexicographic order on character lists by code point. -/
def charListLt : List Char → List Char → Bool
  | _, [] => false
  | [], _ :: _ => true
  | a :: as, b :: bs =>
    if a.val < b.val then true
    else if b.val < a.val then false
    else charListLt as bs

/-- Embedding of the string comparison used by JS relational operators and SQL
text comparison: lexicographic by code point. -/
def strLt (a b : String) : Bool :=
  charListLt a.data b.data

/-- a <= b as the negation of b < a. -/
def strLe (a b : String) : Bool :=
  !(strLt b a)

/-- Split a character list at every occurrence of the separator. -/
def splitChars (sep : Char) : List Char → List (List Char)
  | [] => [[]]
  | c :: cs =>
    let rest := splitChars sep cs
    if c = sep then [] :: rest
    else
      match rest with
      | r :: rs => (c :: r) :: rs
      | [] => [[c]]

/-- Embedding of JS String.prototype.split for a one-character separator. -/
def splitOnChar (sep : Char) (s : String) : List String :=
  (splitChars sep s.data).map String.mk

/-- JS Number conversion restricted to the digit strings the HH:mm DTO
validation guarantees; a non-digit component would be NaN and is mapped to
none. -/
def toNatDigits (s : String) : Option Nat :=
  if s.data.all Char.isDigit && !s.data.isEmpty then
    some (s.data.foldl (fun n c => 10 * n + (c.toNat - 48)) 0)
  else none

namespace VariantA

/-- Movie entity (movie.entity.ts, snake_case variant).  `rating` and money
amounts are floats in the source; only equality and ordering on them are ever
used, so they are embedded as integers. -/
structure Movie where
  id : Nat
  title : String
  genre : String
  duration : Int
  rating : Int
  release_year : Int
deriving Repr, DecidableEq

/-- ShowTime entity (showTime.entity.ts, snake_case variant). -/
structure ShowTime where
  id : Nat
  movie_id : Nat
  theater : String
  start_time : String
  end_time : String
  price : Int
deriving Repr, DecidableEq

/-- Ticket entity (ticket.entity.ts).  The auto-generated primary key is never
read by the business logic and is omitted. -/
structure Ticket where
  movie_id : Nat
  showtime_id : Nat
  seat_number : Int
  customer_name : String
deriving Repr, DecidableEq

/-- Database state of this variant: the movie, show_time and ticket tables. -/
structure State where
  movies : List Movie
  showtimes : List ShowTime
  tickets : List Ticket
deriving Repr, DecidableEq

/-- MovieRepository.fetchMovieByTitleAndReleaseYear: SELECT * FROM movie WHERE
title = $1 AND release_year = $2, first row or null. -/
def fetchMovieByTitleAndReleaseYear (movies : List Movie) (title : String) (year : Int) :
    Option Movie :=
  movies.find? fun m => m.title == title && m.release_year == year

/-- MovieRepository.fetchMovieById. -/
def fetchMovieById (movies : List Movie) (id : Nat) : Option Movie :=
  movies.find? fun m => m.id == id

/-- ShowTimeRepository.fetchShowTimeById. -/
def fetchShowTimeById (showtimes : List ShowTime) (id : Nat) : Option ShowTime :=
  showtimes.find? fun st => st.id == id

/-- One row of the overlap test of ShowTimeRepository.hasOverLappingShowTime,
with $2 the proposed start and $3 the proposed end:
($2 >= start_time AND $2 < end_time) OR ($3 > start_time AND $3 <= end_time)
OR ($2 <= start_time AND $3 >= end_time). -/
def overlapsRow (startTime endTime : String) (st : ShowTime) : Bool :=
  (strLe st.start_time startTime && strLt startTime st.end_time) ||
  (strLt st.start_time endTime && strLe endTime st.end_time) ||
  (strLe startTime st.start_time && strLe st.end_time endTime)

/-- ShowTimeRepository.hasOverLappingShowTime: true when some row of the same
theater (compared with LOWER on both sides) passes the overlap test. -/
def hasOverLappingShowTime (showtimes : List ShowTime) (theater startTime endTime : String) :
    Bool :=
  showtimes.any fun st =>
    (toLowerCase st.theater == toLowerCase theater) && overlapsRow startTime endTime st

/-- ShowTimeRepository.findExactShowTime: first row agreeing on movie_id,
LOWER(theater), start_time, end_time and price. -/
def findExactShowTime (showtimes : List ShowTime) (movie_id : Nat)
    (theater startTime endTime : String) (price : Int) : Option ShowTime :=
  showtimes.find? fun st =>
    st.movie_id == movie_id && (toLowerCase st.theater == toLowerCase theater) &&
    st.start_time == startTime && st.end_time == endTime && st.price == price

/-- ShowTimeRepository.findShowTimeByTheaterAndStartTime: the theater parameter
is trimmed before the LOWER comparison. -/
def findShowTimeByTheaterAndStartTime (showtimes : List ShowTime)
    (theater startTime : String) : Option ShowTime :=
  showtimes.find? fun st =>
    (toLowerCase st.theater == toLowerCase (trimString theater)) && st.start_time == startTime

/-- TicketRepository.isSeatTaken. -/
def isSeatTaken (tickets : List Ticket) (showtimeId : Nat) (seat : Int) : Bool :=
  tickets.any fun t => t.showtime_id == showtimeId && t.seat_number == seat

/-- Row count of SELECT COUNT(*) FROM ticket WHERE showtime_id = $1. -/
def ticketCountFor (tickets : List Ticket) (showtimeId : Nat) : Nat :=
  (tickets.filter fun t => t.showtime_id == showtimeId).length

/-- TicketRepository.isTheaterFull: this variant tests the count with equality,
count == 100. -/
def isTheaterFull (tickets : List Ticket) (showtimeId : Nat) : Bool :=
  ticketCountFor tickets showtimeId == 100

/-- TicketRepository.getTicketsForShowTime. -/
def getTicketsForShowTime (tickets : List Ticket) (showtimeId : Nat) : List Ticket :=
  tickets.filter fun t => t.showtime_id == showtimeId

/-- Auto-generated primary key for a new showtime row. -/
def nextShowTimeId (showtimes : List ShowTime) : Nat :=
  (showtimes.map ShowTime.id).foldr max 0 + 1

/-- Auto-generated primary key for a new movie row. -/
def nextMovieId (movies : List Movie) : Nat :=
  (movies.map Movie.id).foldr max 0 + 1

/-- create-showTime.dto.ts. -/
structure CreateShowTimeDto where
  movie_title : String
  movie_release_year : Int
  theater : String
  start_time : String
  end_time : String
  price : Int
deriving Repr, DecidableEq

/-- update-showTime.dto.ts: all fields optional. -/
structure UpdateShowTimeDto where
  theater : Option String := none
  start_time : Option String := none
  end_time : Option String := none
  price : Option Int := none
  movie_title : Option String := none
  movie_release_year : Option Int := none
deriving Repr, DecidableEq

/-- create-ticket.dto.ts. -/
structure CreateTicketDto where
  movie_title : String
  movie_theater : String
  movie_start_time : String
  customer_name : String
  seat_number : Int
deriving Repr, DecidableEq

/-- create-movie.dto.ts. -/
structure CreateMovieDto where
  title : String
  genre : String
  duration : Int
  rating : Int
  release_year : Int
deriving Repr, DecidableEq

/-- update-movie.dto.ts: all fields optional. -/
structure UpdateMovieDto where
  title : Option String := none
  genre : Option String := none
  duration : Option Int := none
  rating : Option Int := none
  release_year : Option Int := none
deriving Repr, DecidableEq

/-- The exceptions ShowTimeService can throw.  Constructors carry the dynamic
data interpolated into the source message.  `invalidId`, `showtimeNotFound`,
`movieNotFound`, `movieFieldsIncomplete` and `durationUndetermined` are
NotFound or BadRequest lookups; the rest are BadRequest business violations. -/
inductive ShowTimeErr
  | priceNotPositive
  | movieNotFound (title : String) (year : Int)
  | sameStartEnd
  | endBeforeStart
  | durationMismatch (expected provided : Int)
  | overlap
  | duplicateDetails
  | invalidId
  | showtimeNotFound (id : Nat)
  | movieFieldsIncomplete
  | durationUndetermined
  | updateOverlap
deriving Repr, DecidableEq

/-- The exceptions TicketService.addNewTicket can throw. -/
inductive TicketErr
  | showtimeNotFound (theater startTime : String)
  | movieNotFound (id : Nat)
  | titleMismatch (scheduled provided : String)
  | theaterFull
  | duplicateCustomer (customer : String) (seat : Int)
  | seatTaken (seat : Int)
deriving Repr, DecidableEq

/-- Classification of TicketService errors: the two lookup failures are
NotFoundException, everything else is BadRequestException. -/
def TicketErr.isBadRequest : TicketErr → Bool
  | .showtimeNotFound _ _ => false
  | .movieNotFound _ => false
  | _ => true

/-- The exceptions MovieService (id-identity variant) can throw. -/
inductive MovieErr
  | duplicateTitleYear (title : String) (year : Int)
  | invalidId
  | movieNotFoundById (id : Nat)
  | noFields
deriving Repr, DecidableEq

/-- ShowTimeService.calculateDuration parses one HH:mm component with Number;
the DTO validation guarantees a digits-only component. -/
def timeComponent (s : String) : Int :=
  (((toNatDigits s).getD 0 : Nat) : Int)

/-- ShowTimeService.calculateDuration: end total minutes minus start total
minutes, from HH:mm strings. -/
def calculateDuration (startTime endTime : String) : Int :=
  let sp := (splitOnChar ':' startTime).map timeComponent
  let ep := (splitOnChar ':' endTime).map timeComponent
  (ep.getD 0 0 * 60 + ep.getD 1 0) - (sp.getD 0 0 * 60 + sp.getD 1 0)

/-- ShowTimeService.addNewShowTime: price, movie existence, time ordering,
duration match, overlap and exact-duplicate checks, then INSERT. -/
def addNewShowTime (s : State) (dto : CreateShowTimeDto) : Except ShowTimeErr State :=
  if dto.price ≤ 0 then .error .priceNotPositive
  else
    let movieName := normName dto.movie_title
    let theaterName := normName dto.theater
    match fetchMovieByTitleAndReleaseYear s.movies movieName dto.movie_release_year with
    | none => .error (.movieNotFound movieName dto.movie_release_year)
    | some movie =>
      if dto.start_time = dto.end_time then .error .sameStartEnd
      else if strLt dto.end_time dto.start_time then .error .endBeforeStart
      else
        let showTimeDuration := calculateDuration dto.start_time dto.end_time
        if showTimeDuration ≠ movie.duration then
          .error (.durationMismatch movie.duration showTimeDuration)
        else if hasOverLappingShowTime s.showtimes theaterName dto.start_time dto.end_time then
          .error .overlap
        else
          match findExactShowTime s.showtimes movie.id theaterName dto.start_time
              dto.end_time dto.price with
          | some _ => .error .duplicateDetails
          | none => .ok { s with showtimes := s.showtimes ++
              [⟨nextShowTimeId s.showtimes, movie.id, theaterName,
                dto.start_time, dto.end_time, dto.price⟩] }

/-- JS truthiness of an optional string field: undefined and the empty string
are falsy. -/
def truthyStr : Option String → Bool
  | some s => !(s == "")
  | none => false

/-- JS truthiness of an optional numeric field: undefined and 0 are falsy. -/
def truthyInt : Option Int → Bool
  | some n => !(n == 0)
  | none => false

/-- ShowTimeService.validateMovie: both title and release year must be given
together, and if given the movie must resolve. -/
def validateMovie (movies : List Movie) (dto : UpdateShowTimeDto) :
    Except ShowTimeErr (Option Movie) :=
  if truthyStr dto.movie_title && truthyInt dto.movie_release_year then
    let movieName := normName (dto.movie_title.getD "")
    match fetchMovieByTitleAndReleaseYear movies movieName (dto.movie_release_year.getD 0) with
    | none => .error (.movieNotFound movieName (dto.movie_release_year.getD 0))
    | some m => .ok (some m)
  else if truthyStr dto.movie_title || truthyInt dto.movie_release_year then
    .error .movieFieldsIncomplete
  else
    .ok none

/-- ShowTimeService.createUpdatedShowTime: merge the update fields over the
stored row; an updated theater is normalized, times and price are taken as
given. -/
def createUpdatedShowTime (existing : ShowTime) (dto : UpdateShowTimeDto)
    (movie_id : Nat) : ShowTime :=
  { existing with
    movie_id := movie_id
    theater := match dto.theater with
      | some t => normName t
      | none => existing.theater
    start_time := dto.start_time.getD existing.start_time
    end_time := dto.end_time.getD existing.end_time
    price := dto.price.getD existing.price }

/-- ShowTimeService.validateTimeLogic: time ordering and duration match. -/
def validateTimeLogic (startTime endTime : String) (expectedDuration : Int) :
    Except ShowTimeErr Unit :=
  if startTime = endTime then .error .sameStartEnd
  else if strLt endTime startTime then .error .endBeforeStart
  else
    let actualDuration := calculateDuration startTime endTime
    if actualDuration ≠ expectedDuration then
      .error (.durationMismatch expectedDuration actualDuration)
    else .ok ()

/-- The movie id the update will store: the validated new movie, or the stored
row's movie. -/
def resolvedMovieId (movieOpt : Option Movie) (existing : ShowTime) : Nat :=
  match movieOpt with
  | some m => m.id
  | none => existing.movie_id

/-- The duration the update validates against: the validated new movie's, or
the one fetched for the stored movie id. -/
def resolvedDuration (movies : List Movie) (movieOpt : Option Movie) (existing : ShowTime) :
    Option Int :=
  match movieOpt with
  | some m => some m.duration
  | none => (fetchMovieById movies (resolvedMovieId movieOpt existing)).map Movie.duration

/-- ShowTimeService.updateShowTimeInfo.  The overlap check runs over the whole
show_time table of this variant; the repository query of this variant has no
way to exclude a row by id.  The JS guard (!duration) also catches duration 0. -/
def updateShowTimeInfo (s : State) (id : Nat) (dto : UpdateShowTimeDto) :
    Except ShowTimeErr State :=
  if id = 0 then .error .invalidId
  else
    match fetchShowTimeById s.showtimes id with
    | none => .error (.showtimeNotFound id)
    | some existing =>
      match validateMovie s.movies dto with
      | .error e => .error e
      | .ok movieOpt =>
        let movieId := resolvedMovieId movieOpt existing
        let durationOpt := resolvedDuration s.movies movieOpt existing
        match durationOpt with
        | none => .error .durationUndetermined
        | some duration =>
          if duration = 0 then .error .durationUndetermined
          else
            let updated := createUpdatedShowTime existing dto movieId
            if (match dto.price with | some p => decide (p ≤ 0) | none => false) then
              .error .priceNotPositive
            else
              match validateTimeLogic updated.start_time updated.end_time duration with
              | .error e => .error e
              | .ok _ =>
                let changedTime :=
                  updated.start_time != existing.start_time ||
                  updated.end_time != existing.end_time ||
                  updated.theater != existing.theater
                let persisted : Except ShowTimeErr State :=
                  .ok { s with showtimes := s.showtimes.map fun st =>
                    if st.id = id then updated else st }
                if changedTime then
                  if hasOverLappingShowTime s.showtimes updated.theater
                      updated.start_time updated.end_time then
                    .error .updateOverlap
                  else persisted
                else persisted

/-- TicketService.addNewTicket: showtime lookup by theater and start time,
movie lookup, title match, capacity, duplicate-customer and seat-taken checks,
then INSERT. -/
def addNewTicket (s : State) (dto : CreateTicketDto) : Except TicketErr State :=
  let movieName := normName dto.movie_title
  let theaterName := normName dto.movie_theater
  let customerName := normName dto.customer_name
  match findShowTimeByTheaterAndStartTime s.showtimes theaterName dto.movie_start_time with
  | none => .error (.showtimeNotFound theaterName dto.movie_start_time)
  | some showTime =>
    match fetchMovieById s.movies showTime.movie_id with
    | none => .error (.movieNotFound showTime.movie_id)
    | some movie =>
      if normName movie.title ≠ movieName then
        .error (.titleMismatch movie.title dto.movie_title)
      else if isTheaterFull s.tickets showTime.id then
        .error .theaterFull
      else if (getTicketsForShowTime s.tickets showTime.id).any
          (fun t => toLowerCase t.customer_name == customerName &&
            t.seat_number == dto.seat_number) then
        .error (.duplicateCustomer dto.customer_name dto.seat_number)
      else if isSeatTaken s.tickets showTime.id dto.seat_number then
        .error (.seatTaken dto.seat_number)
      else
        .ok { s with tickets := s.tickets ++
          [⟨movie.id, showTime.id, dto.seat_number, customerName⟩] }

/-- MovieService.addNewMovie (id-identity variant): normName, duplicate check
by (title, release year), INSERT. -/
def addNewMovie (s : State) (dto : CreateMovieDto) : Except MovieErr State :=
  let title := normName dto.title
  let genre := normName dto.genre
  match fetchMovieByTitleAndReleaseYear s.movies title dto.release_year with
  | some _ => .error (.duplicateTitleYear title dto.release_year)
  | none => .ok { s with movies := s.movies ++
      [⟨nextMovieId s.movies, title, genre, dto.duration, dto.rating, dto.release_year⟩] }

/-- MovieService.updateMovieInfo (id-identity variant): id validity, existence,
non-empty payload, merge, normName title and genre, UPDATE by id.  There is no
title-collision check in this variant. -/
def updateMovieInfo (s : State) (id : Nat) (dto : UpdateMovieDto) : Except MovieErr State :=
  if id = 0 then .error .invalidId
  else
    match fetchMovieById s.movies id with
    | none => .error (.movieNotFoundById id)
    | some movieExists =>
      if dto.title.isNone && dto.genre.isNone && dto.duration.isNone &&
          dto.rating.isNone && dto.release_year.isNone then
        .error .noFields
      else
        let updatedMovie : Movie :=
          { id := movieExists.id
            title := normName (dto.title.getD movieExists.title)
            genre := normName (dto.genre.getD movieExists.genre)
            duration := dto.duration.getD movieExists.duration
            rating := dto.rating.getD movieExists.rating
            release_year := dto.release_year.getD movieExists.release_year }
        .ok { s with movies := s.movies.map fun m =>
          if m.id = id then updatedMovie else m }

/-- A sequence of booking attempts executed in order; a rejected attempt leaves
the state unchanged and the sequence continues. -/
def runTickets (s : State) (reqs : List CreateTicketDto) : State :=
  reqs.foldl (fun st dto =>
    match addNewTicket st dto with
    | .ok st2 => st2
    | .error _ => st) s

/-- No two tickets of the same showtime share a seat number. -/
def seatsDistinct (tickets : List Ticket) : Prop :=
  List.Pairwise (fun a b => a.showtime_id = b.showtime_id → a.seat_number ≠ b.seat_number)
    tickets

end VariantA

namespace VariantB

/-- Movie entity of the camelCase variant. -/
structure Movie where
  id : Nat
  title : String
  genre : String
  duration : Int
  rating : Int
  releaseYear : Int
deriving Repr, DecidableEq

/-- ShowTime entity of the camelCase variant. -/
structure ShowTime where
  id : Nat
  movieId : Nat
  theater : String
  startTime : String
  endTime : String
  price : Int
deriving Repr, DecidableEq

/-- Booking entity; the DB-generated UUID primary key is never read by the
business logic and is omitted. -/
structure Booking where
  showtimeId : Nat
  seatNumber : Int
  userId : String
deriving Repr, DecidableEq

/-- Database state of this variant. -/
structure State where
  movies : List Movie
  showtimes : List ShowTime
  bookings : List Booking
deriving Repr, DecidableEq

/-- MovieRepository.findMovieByTitle: SELECT * FROM movies WHERE LOWER(title) =
LOWER($1) with the parameter trimmed, first row or null. -/
def findMovieByTitle (movies : List Movie) (title : String) : Option Movie :=
  movies.find? fun m => toLowerCase m.title == toLowerCase (trimString title)

/-- MovieRepository.fetchMovieById. -/
def fetchMovieById (movies : List Movie) (id : Nat) : Option Movie :=
  movies.find? fun m => m.id == id

/-- ShowTimeRepository.fetchShowTimeById. -/
def fetchShowTimeById (showtimes : List ShowTime) (id : Nat) : Option ShowTime :=
  showtimes.find? fun st => st.id == id

/-- ShowTimeRepository.hasOverlappingShowTime of the camelCase variant: same
three-clause window test; an excludeId argument, when truthy, additionally
filters out the row with that id. -/
def hasOverlappingShowTime (showtimes : List ShowTime) (theater startTime endTime : String)
    (excludeId : Option Nat) : Bool :=
  showtimes.any fun st =>
    (toLowerCase st.theater == toLowerCase theater) &&
    ((strLe st.startTime startTime && strLt startTime st.endTime) ||
     (strLt st.startTime endTime && strLe endTime st.endTime) ||
     (strLe startTime st.startTime && strLe st.endTime endTime)) &&
    !(match excludeId with
      | some i => !(i == 0) && st.id == i
      | none => false)

/-- BookingRepository.isSeatTaken. -/
def isSeatTaken (bookings : List Booking) (showtimeId : Nat) (seat : Int) : Bool :=
  bookings.any fun b => b.showtimeId == showtimeId && b.seatNumber == seat

/-- Row count of SELECT COUNT(*) FROM bookings WHERE showtimeId = $1. -/
def bookingCountFor (bookings : List Booking) (showtimeId : Nat) : Nat :=
  (bookings.filter fun b => b.showtimeId == showtimeId).length

/-- BookingRepository.isTheaterFull: this variant tests count >= 100. -/
def isTheaterFull (bookings : List Booking) (showtimeId : Nat) : Bool :=
  decide (100 ≤ bookingCountFor bookings showtimeId)

/-- BookingRepository.getBookingsForShowTime. -/
def getBookingsForShowTime (bookings : List Booking) (showtimeId : Nat) : List Booking :=
  bookings.filter fun b => b.showtimeId == showtimeId

/-- Auto-generated primary key for a new movie row. -/
def nextMovieId (movies : List Movie) : Nat :=
  (movies.map Movie.id).foldr max 0 + 1

/-- booking.dto.ts. -/
structure BookingDto where
  userId : String
  showtimeId : Nat
  seatNumber : Int
deriving Repr, DecidableEq

/-- movie.dto.ts: a full movie payload, no optional fields. -/
structure MovieDto where
  title : String
  genre : String
  duration : Int
  rating : Int
  releaseYear : Int
deriving Repr, DecidableEq

/-- The exceptions BookingService.addNewBooking can throw. -/
inductive BookingErr
  | showtimeNotFound (id : Nat)
  | movieNotFound (id : Nat)
  | theaterFull
  | duplicateUser (seat : Int)
  | seatTaken (seat : Int)
deriving Repr, DecidableEq

/-- Classification of BookingService errors: the two lookup failures are
NotFoundException, everything else is BadRequestException. -/
def BookingErr.isBadRequest : BookingErr → Bool
  | .showtimeNotFound _ => false
  | .movieNotFound _ => false
  | _ => true

/-- The exceptions MovieService (title-identity variant) can throw. -/
inductive MovieBErr
  | duplicateTitle (title : String)
  | movieNotFoundByTitle (title : String)
deriving Repr, DecidableEq

/-- MovieRepository.updateMovieInfo (title-identity variant): every row whose
LOWER(title) matches the trimmed search title has its non-null fields replaced,
strings trimmed again by the query parameters. -/
def updateMovieInfoRows (movies : List Movie) (movieTitle : String)
    (title genre : Option String) (duration rating releaseYear : Option Int) :
    List Movie :=
  movies.map fun m =>
    if toLowerCase m.title == toLowerCase (trimString movieTitle) then
      { m with
        title := (title.map trimString).getD m.title
        genre := (genre.map trimString).getD m.genre
        duration := duration.getD m.duration
        rating := rating.getD m.rating
        releaseYear := releaseYear.getD m.releaseYear }
    else m

/-- MovieService.addNewMovie (title-identity variant): normName, duplicate
check by title, INSERT (the repository trims the strings once more). -/
def addNewMovie (s : State) (dto : MovieDto) : Except MovieBErr State :=
  let movieTitle := normName dto.title
  let movieGenre := normName dto.genre
  match findMovieByTitle s.movies movieTitle with
  | some _ => .error (.duplicateTitle movieTitle)
  | none => .ok { s with movies := s.movies ++
      [⟨nextMovieId s.movies, trimString movieTitle, trimString movieGenre,
        dto.duration, dto.rating, dto.releaseYear⟩] }

/-- MovieService.updateMovieInfo (title-identity variant): the movie must
resolve by its current title; if the normalized title changes, a second lookup
rejects a collision with an existing movie; then UPDATE by the original title. -/
def updateMovieInfo (s : State) (title : String) (dto : MovieDto) :
    Except MovieBErr State :=
  let originalTitle := normName title
  match findMovieByTitle s.movies originalTitle with
  | none => .error (.movieNotFoundByTitle originalTitle)
  | some _ =>
    let updatedTitle := normName dto.title
    let persisted : Except MovieBErr State :=
      .ok { s with movies := (updateMovieInfoRows s.movies originalTitle
        (some updatedTitle) (some (normName dto.genre))
        (some dto.duration) (some dto.rating) (some dto.releaseYear)) }
    if updatedTitle ≠ originalTitle then
      match findMovieByTitle s.movies updatedTitle with
      | some _ => .error (.duplicateTitle updatedTitle)
      | none => persisted
    else persisted

/-- BookingService.addNewBooking: showtime lookup by id, movie lookup,
capacity, duplicate-user and seat-taken checks, then INSERT. -/
def addNewBooking (s : State) (dto : BookingDto) : Except BookingErr State :=
  match fetchShowTimeById s.showtimes dto.showtimeId with
  | none => .error (.showtimeNotFound dto.showtimeId)
  | some showtime =>
    match fetchMovieById s.movies showtime.movieId with
    | none => .error (.movieNotFound showtime.movieId)
    | some _ =>
      if isTheaterFull s.bookings dto.showtimeId then
        .error .theaterFull
      else if (getBookingsForShowTime s.bookings dto.showtimeId).any
          (fun b => b.userId == dto.userId && b.seatNumber == dto.seatNumber) then
        .error (.duplicateUser dto.seatNumber)
      else if isSeatTaken s.bookings dto.showtimeId dto.seatNumber then
        .error (.seatTaken dto.seatNumber)
      else
        .ok { s with bookings := s.bookings ++
          [⟨dto.showtimeId, dto.seatNumber, dto.userId⟩] }

/-- A sequence of booking attempts executed in order; a rejected attempt leaves
the state unchanged and the sequence continues. -/
def runBookings (s : State) (reqs : List BookingDto) : State :=
  reqs.foldl (fun st dto =>
    match addNewBooking st dto with
    | .ok st2 => st2
    | .error _ => st) s

/-- No two bookings of the same showtime share a seat number. -/
def seatsDistinctB (bookings : List Booking) : Prop :=
  List.Pairwise (fun a b => a.showtimeId = b.showtimeId → a.seatNumber ≠ b.seatNumber)
    bookings

end VariantB

theorem charListLt_irrefl (l : List Char) : charListLt l l = false := by
  induction l with
  | nil => rfl
  | cons a as ih => simp [charListLt, ih]

theorem strLt_irrefl (s : String) : strLt s s = false :=
  charListLt_irrefl s.data

theorem charListLt_total (a b : List Char) (h : a ≠ b) :
    charListLt a b = true ∨ charListLt b a = true := by
  induction a generalizing b with
  | nil =>
    cases b with
    | nil => exact absurd rfl h
    | cons c cs => left; rfl
  | cons x xs ih =>
    cases b with
    | nil => right; rfl
    | cons y ys =>
      by_cases hxy : x.val < y.val
      · left; simp [charListLt, hxy]
      · by_cases hyx : y.val < x.val
        · right; simp [charListLt, hyx]
        · have hx : x = y := by
            apply Char.le_antisymm
            · exact Char.not_lt.mp hyx
            · exact Char.not_lt.mp hxy
          subst hx
          have hys : xs ≠ ys := by
            intro he; exact h (by rw [he])
          rcases ih ys hys with h1 | h1
          · left; simp [charListLt, hxy, hyx, h1]
          · right; simp [charListLt, hxy, hyx, h1]

theorem strLt_total (a b : String) (h : a ≠ b) :
    strLt a b = true ∨ strLt b a = true := by
  apply charListLt_total
  intro hd
  apply h
  cases a; cases b; cases hd; rfl

theorem strLe_refl (s : String) : strLe s s = true := by
  simp [strLe, strLt_irrefl]

theorem findExact_none_of_no_overlap
    (showtimes : List VariantA.ShowTime) (movie_id : Nat)
    (theater S E : String) (price : Int)
    (hSE : strLt S E = true)
    (hov : VariantA.hasOverLappingShowTime showtimes theater S E = false) :
    VariantA.findExactShowTime showtimes movie_id theater S E price = none := by
  rw [VariantA.findExactShowTime, List.find?_eq_none]
  intro st hmem hpred
  rw [VariantA.hasOverLappingShowTime, List.any_eq_false] at hov
  have h2 := hov st hmem
  simp only [Bool.and_eq_true, beq_iff_eq] at hpred
  obtain ⟨⟨⟨⟨hmid, hth⟩, hst⟩, het⟩, hpr⟩ := hpred
  apply h2
  simp only [Bool.and_eq_true, beq_iff_eq]
  refine ⟨hth, ?_⟩
  rw [VariantA.overlapsRow, hst, het]
  simp [strLe_refl, hSE]

theorem validateTimeLogic_ok_iff (a b : String) (d : Int) :
    VariantA.validateTimeLogic a b d = .ok () ↔
      (a ≠ b ∧ strLt b a = false ∧ VariantA.calculateDuration a b = d) := by
  simp only [VariantA.validateTimeLogic]
  split_ifs with h1 h2 h3
  · simp [h1]
  · simp [h1, h2]
  · simp [h1, h2, h3]
  · simp only [Bool.not_eq_true] at h2
    simp [h1, h2, not_not.mp h3]

theorem addNewShowTime_ok_duration :
    ∀ (s : VariantA.State) (dto : VariantA.CreateShowTimeDto) (s2 : VariantA.State),
      VariantA.addNewShowTime s dto = .ok s2 →
        ∃ m, VariantA.fetchMovieByTitleAndReleaseYear s.movies (normName dto.movie_title)
            dto.movie_release_year = some m ∧
          VariantA.calculateDuration dto.start_time dto.end_time = m.duration := by
  intro s dto s2 h
  simp only [VariantA.addNewShowTime] at h
  by_cases hp : dto.price ≤ 0
  · simp [hp] at h
  · rw [if_neg hp] at h
    rcases hm : VariantA.fetchMovieByTitleAndReleaseYear s.movies (normName dto.movie_title)
        dto.movie_release_year with _ | movie
    · rw [hm] at h; simp at h
    · simp only [hm] at h
      refine ⟨movie, rfl, ?_⟩
      by_cases heq : dto.start_time = dto.end_time
      · simp [heq] at h
      · rw [if_neg heq] at h
        by_cases hgt : strLt dto.end_time dto.start_time = true
        · simp [hgt] at h
        · rw [Bool.not_eq_true] at hgt
          simp only [hgt, Bool.false_eq_true, if_false] at h
          by_cases hdm : VariantA.calculateDuration dto.start_time dto.end_time ≠ movie.duration
          · simp [hdm] at h
          · exact not_not.mp hdm

theorem addNewShowTime_mismatch (s : VariantA.State) (dto : VariantA.CreateShowTimeDto)
    (m : VariantA.Movie)
    (hm : VariantA.fetchMovieByTitleAndReleaseYear s.movies (normName dto.movie_title)
      dto.movie_release_year = some m)
    (hp : ¬ dto.price ≤ 0) (hne : dto.start_time ≠ dto.end_time)
    (hgt : strLt dto.end_time dto.start_time = false)
    (hdm : VariantA.calculateDuration dto.start_time dto.end_time ≠ m.duration) :
    VariantA.addNewShowTime s dto = .error (.durationMismatch m.duration
      (VariantA.calculateDuration dto.start_time dto.end_time)) := by
  simp only [VariantA.addNewShowTime, if_neg hp, hm]
  rw [if_neg hne]
  simp only [hgt, Bool.false_eq_true, if_false]
  rw [if_pos hdm]

theorem updateShowTime_ok_duration (s : VariantA.State) (id : Nat)
    (dto : VariantA.UpdateShowTimeDto) (s2 : VariantA.State)
    (existing : VariantA.ShowTime) (movieOpt : Option VariantA.Movie) (d : Int)
    (hex : VariantA.fetchShowTimeById s.showtimes id = some existing)
    (hvm : VariantA.validateMovie s.movies dto = .ok movieOpt)
    (hdur : VariantA.resolvedDuration s.movies movieOpt existing = some d)
    (hok : VariantA.updateShowTimeInfo s id dto = .ok s2) :
    VariantA.calculateDuration
      (VariantA.createUpdatedShowTime existing dto
        (VariantA.resolvedMovieId movieOpt existing)).start_time
      (VariantA.createUpdatedShowTime existing dto
        (VariantA.resolvedMovieId movieOpt existing)).end_time = d := by
  by_cases hid : id = 0
  · simp [VariantA.updateShowTimeInfo, hid] at hok
  · simp only [VariantA.updateShowTimeInfo, if_neg hid, hex, hvm, hdur] at hok
    by_cases hd0 : d = 0
    · simp [hd0] at hok
    · rw [if_neg hd0] at hok
      by_cases hpr : (match dto.price with | some p => decide (p ≤ 0) | none => false) = true
      · simp only [hpr, if_true] at hok; cases hok
      · rw [Bool.not_eq_true] at hpr
        simp only [hpr, Bool.false_eq_true, if_false] at hok
        rcases hvt : VariantA.validateTimeLogic
            (VariantA.createUpdatedShowTime existing dto
              (VariantA.resolvedMovieId movieOpt existing)).start_time
            (VariantA.createUpdatedShowTime existing dto
              (VariantA.resolvedMovieId movieOpt existing)).end_time d with e | u
        · rw [hvt] at hok; cases hok
        · cases u
          exact ((validateTimeLogic_ok_iff _ _ _).mp hvt).2.2

theorem updateShowTime_mismatch (s : VariantA.State) (id : Nat)
    (dto : VariantA.UpdateShowTimeDto)
    (existing : VariantA.ShowTime) (movieOpt : Option VariantA.Movie) (d : Int)
    (hid : id ≠ 0)
    (hex : VariantA.fetchShowTimeById s.showtimes id = some existing)
    (hvm : VariantA.validateMovie s.movies dto = .ok movieOpt)
    (hdur : VariantA.resolvedDuration s.movies movieOpt existing = some d)
    (hd0 : d ≠ 0)
    (hpr : (match dto.price with | some p => decide (p ≤ 0) | none => false) = false)
    (hne : (VariantA.createUpdatedShowTime existing dto
        (VariantA.resolvedMovieId movieOpt existing)).start_time ≠
      (VariantA.createUpdatedShowTime existing dto
        (VariantA.resolvedMovieId movieOpt existing)).end_time)
    (hgt : strLt
      (VariantA.createUpdatedShowTime existing dto
        (VariantA.resolvedMovieId movieOpt existing)).end_time
      (VariantA.createUpdatedShowTime existing dto
        (VariantA.resolvedMovieId movieOpt existing)).start_time = false)
    (hdm : VariantA.calculateDuration
      (VariantA.createUpdatedShowTime existing dto
        (VariantA.resolvedMovieId movieOpt existing)).start_time
      (VariantA.createUpdatedShowTime existing dto
        (VariantA.resolvedMovieId movieOpt existing)).end_time ≠ d) :
    VariantA.updateShowTimeInfo s id dto = .error (.durationMismatch d
      (VariantA.calculateDuration
        (VariantA.createUpdatedShowTime existing dto
          (VariantA.resolvedMovieId movieOpt existing)).start_time
        (VariantA.createUpdatedShowTime existing dto
          (VariantA.resolvedMovieId movieOpt existing)).end_time)) := by
  simp only [VariantA.updateShowTimeInfo, if_neg hid, hex, hvm, hdur, if_neg hd0, hpr,
    Bool.false_eq_true, if_false]
  simp only [VariantA.validateTimeLogic, if_neg hne, hgt, Bool.false_eq_true, if_false,
    if_pos hdm]

theorem addNewTicket_preserves (s : VariantA.State) (dto : VariantA.CreateTicketDto)
    (s2 : VariantA.State) (hinv : VariantA.seatsDistinct s.tickets)
    (h : VariantA.addNewTicket s dto = .ok s2) : VariantA.seatsDistinct s2.tickets := by
  simp only [VariantA.addNewTicket] at h
  rcases hst : VariantA.findShowTimeByTheaterAndStartTime s.showtimes
      (normName dto.movie_theater) dto.movie_start_time with _ | showTime
  · rw [hst] at h; cases h
  · simp only [hst] at h
    rcases hmv : VariantA.fetchMovieById s.movies showTime.movie_id with _ | movie
    · rw [hmv] at h; cases h
    · simp only [hmv] at h
      by_cases h3 : normName movie.title ≠ normName dto.movie_title
      · rw [if_pos h3] at h; cases h
      · rw [if_neg h3] at h
        by_cases h4 : VariantA.isTheaterFull s.tickets showTime.id = true
        · rw [if_pos h4] at h; cases h
        · rw [if_neg h4] at h
          by_cases h5 : (VariantA.getTicketsForShowTime s.tickets showTime.id).any
              (fun t => toLowerCase t.customer_name == normName dto.customer_name &&
                t.seat_number == dto.seat_number) = true
          · rw [if_pos h5] at h; cases h
          · rw [if_neg h5] at h
            by_cases h6 : VariantA.isSeatTaken s.tickets showTime.id dto.seat_number = true
            · rw [if_pos h6] at h; cases h
            · rw [if_neg h6] at h
              cases h
              rw [Bool.not_eq_true, VariantA.isSeatTaken, List.any_eq_false] at h6
              rw [VariantA.seatsDistinct, List.pairwise_append]
              refine ⟨hinv, List.pairwise_singleton _ _, ?_⟩
              intro a ha b hb
              simp only [List.mem_singleton] at hb
              subst hb
              intro hsid hseat
              have := h6 a ha
              simp only [Bool.and_eq_true, beq_iff_eq, not_and] at this
              exact this hsid hseat

theorem runTickets_preserves (s : VariantA.State) (reqs : List VariantA.CreateTicketDto)
    (hinv : VariantA.seatsDistinct s.tickets) :
    VariantA.seatsDistinct (VariantA.runTickets s reqs).tickets := by
  induction reqs generalizing s with
  | nil => exact hinv
  | cons dto rest ih =>
    rw [VariantA.runTickets, List.foldl_cons]
    rcases h : VariantA.addNewTicket s dto with e | s2
    · exact ih s hinv
    · exact ih s2 (addNewTicket_preserves s dto s2 hinv h)

theorem addNewTicket_seat_occupied (s : VariantA.State) (dto : VariantA.CreateTicketDto)
    (showTime : VariantA.ShowTime) (movie : VariantA.Movie)
    (hst : VariantA.findShowTimeByTheaterAndStartTime s.showtimes
      (normName dto.movie_theater) dto.movie_start_time = some showTime)
    (hmv : VariantA.fetchMovieById s.movies showTime.movie_id = some movie)
    (htaken : VariantA.isSeatTaken s.tickets showTime.id dto.seat_number = true) :
    ∃ e, VariantA.addNewTicket s dto = .error e ∧ e.isBadRequest = true := by
  simp only [VariantA.addNewTicket, hst, hmv]
  by_cases h3 : normName movie.title ≠ normName dto.movie_title
  · exact ⟨.titleMismatch movie.title dto.movie_title, by rw [if_pos h3], rfl⟩
  · rw [if_neg h3]
    by_cases h4 : VariantA.isTheaterFull s.tickets showTime.id = true
    · exact ⟨.theaterFull, by rw [if_pos h4], rfl⟩
    · rw [if_neg h4]
      by_cases h5 : (VariantA.getTicketsForShowTime s.tickets showTime.id).any
          (fun t => toLowerCase t.customer_name == normName dto.customer_name &&
            t.seat_number == dto.seat_number) = true
      · exact ⟨.duplicateCustomer dto.customer_name dto.seat_number, by rw [if_pos h5], rfl⟩
      · rw [if_neg h5, if_pos htaken]
        exact ⟨.seatTaken dto.seat_number, rfl, rfl⟩

theorem addNewBooking_preserves (s : VariantB.State) (dto : VariantB.BookingDto)
    (s2 : VariantB.State) (hinv : VariantB.seatsDistinctB s.bookings)
    (h : VariantB.addNewBooking s dto = .ok s2) : VariantB.seatsDistinctB s2.bookings := by
  simp only [VariantB.addNewBooking] at h
  rcases hst : VariantB.fetchShowTimeById s.showtimes dto.showtimeId with _ | showtime
  · rw [hst] at h; cases h
  · simp only [hst] at h
    rcases hmv : VariantB.fetchMovieById s.movies showtime.movieId with _ | movie
    · rw [hmv] at h; cases h
    · simp only [hmv] at h
      by_cases h4 : VariantB.isTheaterFull s.bookings dto.showtimeId = true
      · rw [if_pos h4] at h; cases h
      · rw [if_neg h4] at h
        by_cases h5 : (VariantB.getBookingsForShowTime s.bookings dto.showtimeId).any
            (fun b => b.userId == dto.userId && b.seatNumber == dto.seatNumber) = true
        · rw [if_pos h5] at h; cases h
        · rw [if_neg h5] at h
          by_cases h6 : VariantB.isSeatTaken s.bookings dto.showtimeId dto.seatNumber = true
          · rw [if_pos h6] at h; cases h
          · rw [if_neg h6] at h
            cases h
            rw [Bool.not_eq_true, VariantB.isSeatTaken, List.any_eq_false] at h6
            rw [VariantB.seatsDistinctB, List.pairwise_append]
            refine ⟨hinv, List.pairwise_singleton _ _, ?_⟩
            intro a ha b hb
            simp only [List.mem_singleton] at hb
            subst hb
            intro hsid hseat
            have := h6 a ha
            simp only [Bool.and_eq_true, beq_iff_eq, not_and] at this
            exact this hsid hseat

theorem runBookings_preserves (s : VariantB.State) (reqs : List VariantB.BookingDto)
    (hinv : VariantB.seatsDistinctB s.bookings) :
    VariantB.seatsDistinctB (VariantB.runBookings s reqs).bookings := by
  induction reqs generalizing s with
  | nil => exact hinv
  | cons dto rest ih =>
    rw [VariantB.runBookings, List.foldl_cons]
    rcases h : VariantB.addNewBooking s dto with e | s2
    · exact ih s hinv
    · exact ih s2 (addNewBooking_preserves s dto s2 hinv h)

theorem addNewBooking_seat_occupied (s : VariantB.State) (dto : VariantB.BookingDto)
    (showtime : VariantB.ShowTime) (movie : VariantB.Movie)
    (hst : VariantB.fetchShowTimeById s.showtimes dto.showtimeId = some showtime)
    (hmv : VariantB.fetchMovieById s.movies showtime.movieId = some movie)
    (htaken : VariantB.isSeatTaken s.bookings dto.showtimeId dto.seatNumber = true) :
    ∃ e, VariantB.addNewBooking s dto = .error e ∧ e.isBadRequest = true := by
  simp only [VariantB.addNewBooking, hst, hmv]
  by_cases h4 : VariantB.isTheaterFull s.bookings dto.showtimeId = true
  · exact ⟨.theaterFull, by rw [if_pos h4], rfl⟩
  · rw [if_neg h4]
    by_cases h5 : (VariantB.getBookingsForShowTime s.bookings dto.showtimeId).any
        (fun b => b.userId == dto.userId && b.seatNumber == dto.seatNumber) = true
    · exact ⟨.duplicateUser dto.seatNumber, by rw [if_pos h5], rfl⟩
    · rw [if_neg h5, if_pos htaken]
      exact ⟨.seatTaken dto.seatNumber, rfl, rfl⟩

theorem ticket_order1 (s : VariantA.State) (dto : VariantA.CreateTicketDto)
    (h1 : VariantA.findShowTimeByTheaterAndStartTime s.showtimes
      (normName dto.movie_theater) dto.movie_start_time = none) :
    VariantA.addNewTicket s dto =
      .error (.showtimeNotFound (normName dto.movie_theater) dto.movie_start_time) := by
  simp only [VariantA.addNewTicket, h1]

theorem ticket_order2 (s : VariantA.State) (dto : VariantA.CreateTicketDto)
    (showTime : VariantA.ShowTime)
    (h1 : VariantA.findShowTimeByTheaterAndStartTime s.showtimes
      (normName dto.movie_theater) dto.movie_start_time = some showTime)
    (h2 : VariantA.fetchMovieById s.movies showTime.movie_id = none) :
    VariantA.addNewTicket s dto = .error (.movieNotFound showTime.movie_id) := by
  simp only [VariantA.addNewTicket, h1, h2]

theorem ticket_order3 (s : VariantA.State) (dto : VariantA.CreateTicketDto)
    (showTime : VariantA.ShowTime) (movie : VariantA.Movie)
    (h1 : VariantA.findShowTimeByTheaterAndStartTime s.showtimes
      (normName dto.movie_theater) dto.movie_start_time = some showTime)
    (h2 : VariantA.fetchMovieById s.movies showTime.movie_id = some movie)
    (h3 : normName movie.title ≠ normName dto.movie_title) :
    VariantA.addNewTicket s dto = .error (.titleMismatch movie.title dto.movie_title) := by
  simp only [VariantA.addNewTicket, h1, h2, if_pos h3]

theorem ticket_order4 (s : VariantA.State) (dto : VariantA.CreateTicketDto)
    (showTime : VariantA.ShowTime) (movie : VariantA.Movie)
    (h1 : VariantA.findShowTimeByTheaterAndStartTime s.showtimes
      (normName dto.movie_theater) dto.movie_start_time = some showTime)
    (h2 : VariantA.fetchMovieById s.movies showTime.movie_id = some movie)
    (h3 : normName movie.title = normName dto.movie_title)
    (h4 : VariantA.isTheaterFull s.tickets showTime.id = true) :
    VariantA.addNewTicket s dto = .error .theaterFull := by
  simp only [VariantA.addNewTicket, h1, h2, if_neg (not_not.mpr h3), if_pos h4]

theorem ticket_order5 (s : VariantA.State) (dto : VariantA.CreateTicketDto)
    (showTime : VariantA.ShowTime) (movie : VariantA.Movie)
    (h1 : VariantA.findShowTimeByTheaterAndStartTime s.showtimes
      (normName dto.movie_theater) dto.movie_start_time = some showTime)
    (h2 : VariantA.fetchMovieById s.movies showTime.movie_id = some movie)
    (h3 : normName movie.title = normName dto.movie_title)
    (h4 : VariantA.isTheaterFull s.tickets showTime.id = false)
    (h5 : (VariantA.getTicketsForShowTime s.tickets showTime.id).any
      (fun t => toLowerCase t.customer_name == normName dto.customer_name &&
        t.seat_number == dto.seat_number) = true) :
    VariantA.addNewTicket s dto =
      .error (.duplicateCustomer dto.customer_name dto.seat_number) := by
  simp only [VariantA.addNewTicket, h1, h2, if_neg (not_not.mpr h3), h4,
    Bool.false_eq_true, if_false, if_pos h5]

theorem ticket_order6 (s : VariantA.State) (dto : VariantA.CreateTicketDto)
    (showTime : VariantA.ShowTime) (movie : VariantA.Movie)
    (h1 : VariantA.findShowTimeByTheaterAndStartTime s.showtimes
      (normName dto.movie_theater) dto.movie_start_time = some showTime)
    (h2 : VariantA.fetchMovieById s.movies showTime.movie_id = some movie)
    (h3 : normName movie.title = normName dto.movie_title)
    (h4 : VariantA.isTheaterFull s.tickets showTime.id = false)
    (h5 : (VariantA.getTicketsForShowTime s.tickets showTime.id).any
      (fun t => toLowerCase t.customer_name == normName dto.customer_name &&
        t.seat_number == dto.seat_number) = false)
    (h6 : VariantA.isSeatTaken s.tickets showTime.id dto.seat_number = true) :
    VariantA.addNewTicket s dto = .error (.seatTaken dto.seat_number) := by
  simp only [VariantA.addNewTicket, h1, h2, if_neg (not_not.mpr h3), h4, h5,
    Bool.false_eq_true, if_false, if_pos h6]

theorem booking_order1 (s : VariantB.State) (dto : VariantB.BookingDto)
    (h1 : VariantB.fetchShowTimeById s.showtimes dto.showtimeId = none) :
    VariantB.addNewBooking s dto = .error (.showtimeNotFound dto.showtimeId) := by
  simp only [VariantB.addNewBooking, h1]

theorem booking_order2 (s : VariantB.State) (dto : VariantB.BookingDto)
    (showtime : VariantB.ShowTime)
    (h1 : VariantB.fetchShowTimeById s.showtimes dto.showtimeId = some showtime)
    (h2 : VariantB.fetchMovieById s.movies showtime.movieId = none) :
    VariantB.addNewBooking s dto = .error (.movieNotFound showtime.movieId) := by
  simp only [VariantB.addNewBooking, h1, h2]

theorem booking_order3 (s : VariantB.State) (dto : VariantB.BookingDto)
    (showtime : VariantB.ShowTime) (movie : VariantB.Movie)
    (h1 : VariantB.fetchShowTimeById s.showtimes dto.showtimeId = some showtime)
    (h2 : VariantB.fetchMovieById s.movies showtime.movieId = some movie)
    (h4 : VariantB.isTheaterFull s.bookings dto.showtimeId = true) :
    VariantB.addNewBooking s dto = .error .theaterFull := by
  simp only [VariantB.addNewBooking, h1, h2, if_pos h4]

theorem booking_order4 (s : VariantB.State) (dto : VariantB.BookingDto)
    (showtime : VariantB.ShowTime) (movie : VariantB.Movie)
    (h1 : VariantB.fetchShowTimeById s.showtimes dto.showtimeId = some showtime)
    (h2 : VariantB.fetchMovieById s.movies showtime.movieId = some movie)
    (h4 : VariantB.isTheaterFull s.bookings dto.showtimeId = false)
    (h5 : (VariantB.getBookingsForShowTime s.bookings dto.showtimeId).any
      (fun b => b.userId == dto.userId && b.seatNumber == dto.seatNumber) = true) :
    VariantB.addNewBooking s dto = .error (.duplicateUser dto.seatNumber) := by
  simp only [VariantB.addNewBooking, h1, h2, h4, Bool.false_eq_true, if_false, if_pos h5]

theorem booking_order5 (s : VariantB.State) (dto : VariantB.BookingDto)
    (showtime : VariantB.ShowTime) (movie : VariantB.Movie)
    (h1 : VariantB.fetchShowTimeById s.showtimes dto.showtimeId = some showtime)
    (h2 : VariantB.fetchMovieById s.movies showtime.movieId = some movie)
    (h4 : VariantB.isTheaterFull s.bookings dto.showtimeId = false)
    (h5 : (VariantB.getBookingsForShowTime s.bookings dto.showtimeId).any
      (fun b => b.userId == dto.userId && b.seatNumber == dto.seatNumber) = false)
    (h6 : VariantB.isSeatTaken s.bookings dto.showtimeId dto.seatNumber = true) :
    VariantB.addNewBooking s dto = .error (.seatTaken dto.seatNumber) := by
  simp only [VariantB.addNewBooking, h1, h2, h4, h5, Bool.false_eq_true, if_false, if_pos h6]

theorem updateShowTime_after_validation (s : VariantA.State) (id : Nat)
    (dto : VariantA.UpdateShowTimeDto)
    (existing : VariantA.ShowTime) (movieOpt : Option VariantA.Movie) (d : Int)
    (hid : id ≠ 0)
    (hex : VariantA.fetchShowTimeById s.showtimes id = some existing)
    (hvm : VariantA.validateMovie s.movies dto = .ok movieOpt)
    (hdur : VariantA.resolvedDuration s.movies movieOpt existing = some d)
    (hd0 : d ≠ 0)
    (hpr : (match dto.price with | some p => decide (p ≤ 0) | none => false) = false)
    (hvt : VariantA.validateTimeLogic
      (VariantA.createUpdatedShowTime existing dto
        (VariantA.resolvedMovieId movieOpt existing)).start_time
      (VariantA.createUpdatedShowTime existing dto
        (VariantA.resolvedMovieId movieOpt existing)).end_time d = .ok ()) :
    VariantA.updateShowTimeInfo s id dto =
      (if (((VariantA.createUpdatedShowTime existing dto
              (VariantA.resolvedMovieId movieOpt existing)).start_time != existing.start_time ||
            (VariantA.createUpdatedShowTime existing dto
              (VariantA.resolvedMovieId movieOpt existing)).end_time != existing.end_time ||
            (VariantA.createUpdatedShowTime existing dto
              (VariantA.resolvedMovieId movieOpt existing)).theater != existing.theater) &&
           (VariantA.hasOverLappingShowTime s.showtimes
             (VariantA.createUpdatedShowTime existing dto
               (VariantA.resolvedMovieId movieOpt existing)).theater
             (VariantA.createUpdatedShowTime existing dto
               (VariantA.resolvedMovieId movieOpt existing)).start_time
             (VariantA.createUpdatedShowTime existing dto
               (VariantA.resolvedMovieId movieOpt existing)).end_time)) = true
       then .error .updateOverlap
       else .ok { s with showtimes := s.showtimes.map fun st =>
         if st.id = id then
           (VariantA.createUpdatedShowTime existing dto
             (VariantA.resolvedMovieId movieOpt existing))
         else st }) := by
  simp only [VariantA.updateShowTimeInfo, if_neg hid, hex, hvm, hdur, if_neg hd0, hpr,
    Bool.false_eq_true, if_false, hvt]
  by_cases hc : ((VariantA.createUpdatedShowTime existing dto
      (VariantA.resolvedMovieId movieOpt existing)).start_time != existing.start_time ||
    (VariantA.createUpdatedShowTime existing dto
      (VariantA.resolvedMovieId movieOpt existing)).end_time != existing.end_time ||
    (VariantA.createUpdatedShowTime existing dto
      (VariantA.resolvedMovieId movieOpt existing)).theater != existing.theater) = true
  · rw [if_pos hc]
    by_cases hov : VariantA.hasOverLappingShowTime s.showtimes
        (VariantA.createUpdatedShowTime existing dto
          (VariantA.resolvedMovieId movieOpt existing)).theater
        (VariantA.createUpdatedShowTime existing dto
          (VariantA.resolvedMovieId movieOpt existing)).start_time
        (VariantA.createUpdatedShowTime existing dto
          (VariantA.resolvedMovieId movieOpt existing)).end_time = true
    · rw [if_pos hov, if_pos (by rw [hc, hov]; rfl)]
    · rw [Bool.not_eq_true] at hov
      simp only [hov, Bool.and_false, Bool.false_eq_true, if_false]
  · rw [Bool.not_eq_true] at hc
    simp only [hc, Bool.false_and, Bool.false_eq_true, if_false]

theorem char_eq_of_toNat_eq {c d : Char} (h : c.toNat = d.toNat) : c = d :=
  Char.eq_of_val_eq (UInt32.ext h)

theorem toLower_val (c : Char) :
    (Char.toLower c).toNat =
      if 65 ≤ c.toNat ∧ c.toNat ≤ 90 then c.toNat + 32 else c.toNat := by
  simp only [Char.toLower, ge_iff_le]
  split_ifs with h
  · have hv : (c.toNat + 32).isValidChar := Or.inl (by omega)
    rw [Char.ofNat, dif_pos hv]
    rfl
  · rfl

theorem toLower_eq_self {c : Char} (h : ¬(65 ≤ c.toNat ∧ c.toNat ≤ 90)) :
    Char.toLower c = c := by
  simp only [Char.toLower, ge_iff_le]
  rw [if_neg h]

theorem toLower_toLower (c : Char) : Char.toLower (Char.toLower c) = Char.toLower c := by
  by_cases h : 65 ≤ c.toNat ∧ c.toNat ≤ 90
  · apply toLower_eq_self
    rw [toLower_val, if_pos h]
    omega
  · rw [toLower_eq_self h]
    exact toLower_eq_self h

theorem isWhitespace_iff (c : Char) :
    c.isWhitespace = true ↔ c.toNat = 32 ∨ c.toNat = 9 ∨ c.toNat = 13 ∨ c.toNat = 10 := by
  simp only [Char.isWhitespace, Bool.or_eq_true, decide_eq_true_eq]
  constructor
  · rintro (((h | h) | h) | h) <;> subst h <;> decide
  · rintro (h | h | h | h)
    · exact Or.inl (Or.inl (Or.inl (char_eq_of_toNat_eq h)))
    · exact Or.inl (Or.inl (Or.inr (char_eq_of_toNat_eq h)))
    · exact Or.inl (Or.inr (char_eq_of_toNat_eq h))
    · exact Or.inr (char_eq_of_toNat_eq h)

theorem toLower_isWhitespace (c : Char) :
    (Char.toLower c).isWhitespace = c.isWhitespace := by
  by_cases h : 65 ≤ c.toNat ∧ c.toNat ≤ 90
  · have h1 : c.isWhitespace = false := by
      rw [Bool.eq_false_iff]
      intro hw
      rw [isWhitespace_iff] at hw
      omega
    have h2 : (Char.toLower c).isWhitespace = false := by
      rw [Bool.eq_false_iff]
      intro hw
      rw [isWhitespace_iff, toLower_val, if_pos h] at hw
      omega
    rw [h1, h2]
  · rw [toLower_eq_self h]

theorem dropWhile_map_toLower (l : List Char) :
    (l.map Char.toLower).dropWhile Char.isWhitespace =
      (l.dropWhile Char.isWhitespace).map Char.toLower := by
  rw [List.dropWhile_map]
  have hp : (Char.isWhitespace ∘ Char.toLower) = Char.isWhitespace :=
    funext toLower_isWhitespace
  rw [hp]

theorem trimChars_eq (l : List Char) :
    trimChars l = List.rdropWhile Char.isWhitespace (List.dropWhile Char.isWhitespace l) :=
  rfl

theorem trimChars_map_toLower (l : List Char) :
    trimChars (l.map Char.toLower) = (trimChars l).map Char.toLower := by
  rw [trimChars_eq, trimChars_eq, dropWhile_map_toLower]
  generalize l.dropWhile Char.isWhitespace = m
  rw [List.rdropWhile, List.rdropWhile, ← List.map_reverse, dropWhile_map_toLower,
    List.map_reverse]

theorem dropWhile_rdropWhile_dropWhile (l : List Char) :
    List.dropWhile Char.isWhitespace
        (List.rdropWhile Char.isWhitespace (List.dropWhile Char.isWhitespace l)) =
      List.rdropWhile Char.isWhitespace (List.dropWhile Char.isWhitespace l) := by
  set A := List.dropWhile Char.isWhitespace l with hA
  have hAself : List.dropWhile Char.isWhitespace A = A := List.dropWhile_idempotent _ _
  obtain ⟨t, ht⟩ := List.rdropWhile_prefix Char.isWhitespace A
  rcases hB : List.rdropWhile Char.isWhitespace A with _ | ⟨b, bs⟩
  · rfl
  · rw [hB] at ht
    have hpb : Char.isWhitespace b = false := by
      by_contra hpb2
      rw [Bool.not_eq_false] at hpb2
      rw [← ht, List.cons_append, List.dropWhile_cons_of_pos hpb2] at hAself
      have hlen := congrArg List.length hAself
      have hle := (List.dropWhile_suffix (l := bs ++ t) Char.isWhitespace).length_le
      rw [hlen] at hle
      simp [List.length_cons] at hle
    rw [List.dropWhile_cons_of_neg]
    simp [hpb]

theorem trimChars_idem (l : List Char) : trimChars (trimChars l) = trimChars l := by
  rw [trimChars_eq, trimChars_eq, dropWhile_rdropWhile_dropWhile,
    List.rdropWhile_idempotent]

theorem data_toLowerCase (s : String) : (toLowerCase s).data = s.data.map Char.toLower :=
  rfl

theorem data_trimString (s : String) : (trimString s).data = trimChars s.data :=
  rfl

theorem toLowerCase_toLowerCase (s : String) :
    toLowerCase (toLowerCase s) = toLowerCase s := by
  show String.mk ((s.data.map Char.toLower).map Char.toLower) =
    String.mk (s.data.map Char.toLower)
  rw [List.map_map]
  have h : (Char.toLower ∘ Char.toLower) = Char.toLower := funext toLower_toLower
  rw [h]

theorem trimString_toLowerCase (s : String) :
    trimString (toLowerCase s) = toLowerCase (trimString s) := by
  show String.mk (trimChars (s.data.map Char.toLower)) =
    String.mk ((trimChars s.data).map Char.toLower)
  exact congrArg String.mk (trimChars_map_toLower s.data)

theorem trimString_trimString (s : String) : trimString (trimString s) = trimString s := by
  show String.mk (trimChars (trimChars s.data)) = String.mk (trimChars s.data)
  exact congrArg String.mk (trimChars_idem s.data)

theorem trimString_normName (s : String) : trimString (normName s) = normName s := by
  rw [normName, trimString_toLowerCase, trimString_trimString]

theorem toLowerCase_normName (s : String) : toLowerCase (normName s) = normName s := by
  rw [normName, toLowerCase_toLowerCase]

/-- C1: the overlap check returns true for a proposed window exactly when some
stored showtime of the same lowercased theater satisfies
(S >= s and S < e) or (E > s and E <= e) or (S <= s and E >= e); consequently a
window starting exactly at a stored end does not overlap, while one starting
exactly at a stored start does.  The same three-clause test (with an optional,
here absent, excluded id) holds for the camelCase variant of the repository. -/
theorem c1_overlap_predicate :
    (∀ (showtimes : List VariantA.ShowTime) (theater S E : String),
      VariantA.hasOverLappingShowTime showtimes theater S E = true ↔
        ∃ st ∈ showtimes, toLowerCase st.theater = toLowerCase theater ∧
          ((strLe st.start_time S = true ∧ strLt S st.end_time = true) ∨
           (strLt st.start_time E = true ∧ strLe E st.end_time = true) ∨
           (strLe S st.start_time = true ∧ strLe st.end_time E = true))) ∧
    (∀ (st : VariantA.ShowTime) (S E : String),
      strLt st.start_time st.end_time = true → S = st.end_time → strLt S E = true →
      VariantA.overlapsRow S E st = false) ∧
    (∀ (st : VariantA.ShowTime) (S E : String),
      strLt st.start_time st.end_time = true → S = st.start_time →
      VariantA.overlapsRow S E st = true) ∧
    (∀ (showtimes : List VariantB.ShowTime) (theater S E : String),
      VariantB.hasOverlappingShowTime showtimes theater S E none = true ↔
        ∃ st ∈ showtimes, toLowerCase st.theater = toLowerCase theater ∧
          ((strLe st.startTime S = true ∧ strLt S st.endTime = true) ∨
           (strLt st.startTime E = true ∧ strLe E st.endTime = true) ∨
           (strLe S st.startTime = true ∧ strLe st.endTime E = true))) := by
  refine ⟨?_, ?_, ?_, ?_⟩
  · intro showtimes theater S E
    simp [VariantA.hasOverLappingShowTime, VariantA.overlapsRow, List.any_eq_true,
      Bool.and_eq_true, Bool.or_eq_true, beq_iff_eq, or_assoc]
  · intro st S E hlt hS hSE
    subst hS
    simp only [VariantA.overlapsRow, strLe, Bool.or_eq_false_iff, Bool.and_eq_false_iff]
    refine ⟨⟨Or.inr ?_, Or.inr ?_⟩, Or.inl ?_⟩
    · simp [strLt_irrefl]
    · simp [hSE]
    · simp [hlt]
  · intro st S E hlt hS
    subst hS
    simp [VariantA.overlapsRow, strLe, strLt_irrefl, hlt]
  · intro showtimes theater S E
    simp [VariantB.hasOverlappingShowTime, List.any_eq_true,
      Bool.and_eq_true, Bool.or_eq_true, beq_iff_eq, or_assoc]

/-- C1 witness: the predicate at concrete windows in theater a, stored row
14:00-16:00: a 15:00-17:00 window overlaps, a window starting at the stored
end 16:00 does not, one starting at the stored start 14:00 does. -/
theorem c1_overlap_predicate_witness :
    VariantA.hasOverLappingShowTime [⟨1, 1, "a", "14:00", "16:00", 10⟩]
      "A" "15:00" "17:00" = true ∧
    VariantA.overlapsRow "16:00" "18:00" ⟨1, 1, "a", "14:00", "16:00", 10⟩ = false ∧
    VariantA.overlapsRow "14:00" "15:00" ⟨1, 1, "a", "14:00", "16:00", 10⟩ = true := by
  refine ⟨?_, ?_, ?_⟩
  · exact (c1_overlap_predicate.1 [⟨1, 1, "a", "14:00", "16:00", 10⟩] "A" "15:00" "17:00").mpr
      ⟨⟨1, 1, "a", "14:00", "16:00", 10⟩, by decide, by decide, Or.inl (by decide)⟩
  · exact c1_overlap_predicate.2.1 ⟨1, 1, "a", "14:00", "16:00", 10⟩ "16:00" "18:00"
      (by decide) (by decide) (by decide)
  · exact c1_overlap_predicate.2.2.1 ⟨1, 1, "a", "14:00", "16:00", 10⟩ "14:00" "15:00"
      (by decide) (by decide)

/-- C10: once the overlap check reports no conflict for a window with start
strictly before end, the exact-duplicate lookup finds nothing, because a row
with identical theater, start and end satisfies the first overlap clause;
hence addNewShowTime can never fail with the duplicate-details error. -/
theorem c10_duplicate_branch_unreachable :
    (∀ (showtimes : List VariantA.ShowTime) (movie_id : Nat)
        (theater S E : String) (price : Int),
      strLt S E = true →
      VariantA.hasOverLappingShowTime showtimes theater S E = false →
      VariantA.findExactShowTime showtimes movie_id theater S E price = none) ∧
    (∀ (s : VariantA.State) (dto : VariantA.CreateShowTimeDto),
      VariantA.addNewShowTime s dto ≠ .error .duplicateDetails) := by
  constructor
  · exact findExact_none_of_no_overlap
  · intro s dto h
    simp only [VariantA.addNewShowTime] at h
    by_cases hp : dto.price ≤ 0
    · simp [hp] at h
    · rw [if_neg hp] at h
      rcases hm : VariantA.fetchMovieByTitleAndReleaseYear s.movies (normName dto.movie_title)
          dto.movie_release_year with _ | movie
      · rw [hm] at h; simp at h
      · simp only [hm] at h
        by_cases heq : dto.start_time = dto.end_time
        · simp [heq] at h
        · rw [if_neg heq] at h
          by_cases hgt : strLt dto.end_time dto.start_time = true
          · simp [hgt] at h
          · rw [Bool.not_eq_true] at hgt
            simp only [hgt, Bool.false_eq_true, if_false] at h
            have hlt : strLt dto.start_time dto.end_time = true := by
              rcases strLt_total dto.start_time dto.end_time heq with h1 | h1
              · exact h1
              · rw [h1] at hgt; cases hgt
            by_cases hdm : VariantA.calculateDuration dto.start_time dto.end_time ≠ movie.duration
            · simp [hdm] at h
            · rw [if_neg hdm] at h
              by_cases hov : VariantA.hasOverLappingShowTime s.showtimes (normName dto.theater)
                  dto.start_time dto.end_time = true
              · simp [hov] at h
              · rw [Bool.not_eq_true] at hov
                simp only [hov, Bool.false_eq_true, if_false] at h
                rw [findExact_none_of_no_overlap _ _ _ _ _ _ hlt hov] at h
                cases h

/-- C10 witness: with one stored row in theater a, a 12:00-14:00 window in
theater b passes the overlap check and the exact lookup finds nothing. -/
theorem c10_duplicate_branch_unreachable_witness :
    VariantA.findExactShowTime [⟨1, 1, "a", "12:00", "14:00", 10⟩] 1 "b" "12:00" "14:00" 10 =
      none :=
  c10_duplicate_branch_unreachable.1 [⟨1, 1, "a", "12:00", "14:00", 10⟩] 1 "b" "12:00" "14:00" 10
    (by decide) (by decide)

/-- C2: a showtime accepted by addNewShowTime has HH:mm duration equal to the
fetched movie's duration; when the movie resolves and the duration differs the
add never succeeds, and once the price and time-ordering checks pass it fails
with the BadRequest carrying the expected and the provided duration.  The same
holds for updateShowTimeInfo against the merged record and the duration of the
resolved movie.  An error result never touches the stored state. -/
theorem c2_duration_must_match :
    (∀ (s : VariantA.State) (dto : VariantA.CreateShowTimeDto) (s2 : VariantA.State),
      VariantA.addNewShowTime s dto = .ok s2 →
        ∃ m, VariantA.fetchMovieByTitleAndReleaseYear s.movies (normName dto.movie_title)
            dto.movie_release_year = some m ∧
          VariantA.calculateDuration dto.start_time dto.end_time = m.duration) ∧
    (∀ (s : VariantA.State) (dto : VariantA.CreateShowTimeDto) (m : VariantA.Movie),
      VariantA.fetchMovieByTitleAndReleaseYear s.movies (normName dto.movie_title)
          dto.movie_release_year = some m →
      VariantA.calculateDuration dto.start_time dto.end_time ≠ m.duration →
      (∀ s2, VariantA.addNewShowTime s dto ≠ .ok s2) ∧
      (¬ dto.price ≤ 0 → dto.start_time ≠ dto.end_time →
        strLt dto.end_time dto.start_time = false →
        VariantA.addNewShowTime s dto = .error (.durationMismatch m.duration
          (VariantA.calculateDuration dto.start_time dto.end_time)))) ∧
    (∀ (s : VariantA.State) (id : Nat) (dto : VariantA.UpdateShowTimeDto)
        (s2 : VariantA.State) (existing : VariantA.ShowTime)
        (movieOpt : Option VariantA.Movie) (d : Int),
      VariantA.fetchShowTimeById s.showtimes id = some existing →
      VariantA.validateMovie s.movies dto = .ok movieOpt →
      VariantA.resolvedDuration s.movies movieOpt existing = some d →
      VariantA.updateShowTimeInfo s id dto = .ok s2 →
      VariantA.calculateDuration
        (VariantA.createUpdatedShowTime existing dto
          (VariantA.resolvedMovieId movieOpt existing)).start_time
        (VariantA.createUpdatedShowTime existing dto
          (VariantA.resolvedMovieId movieOpt existing)).end_time = d) ∧
    (∀ (s : VariantA.State) (id : Nat) (dto : VariantA.UpdateShowTimeDto)
        (existing : VariantA.ShowTime) (movieOpt : Option VariantA.Movie) (d : Int),
      id ≠ 0 →
      VariantA.fetchShowTimeById s.showtimes id = some existing →
      VariantA.validateMovie s.movies dto = .ok movieOpt →
      VariantA.resolvedDuration s.movies movieOpt existing = some d →
      d ≠ 0 →
      (match dto.price with | some p => decide (p ≤ 0) | none => false) = false →
      (VariantA.createUpdatedShowTime existing dto
        (VariantA.resolvedMovieId movieOpt existing)).start_time ≠
        (VariantA.createUpdatedShowTime existing dto
          (VariantA.resolvedMovieId movieOpt existing)).end_time →
      strLt (VariantA.createUpdatedShowTime existing dto
          (VariantA.resolvedMovieId movieOpt existing)).end_time
        (VariantA.createUpdatedShowTime existing dto
          (VariantA.resolvedMovieId movieOpt existing)).start_time = false →
      VariantA.calculateDuration
        (VariantA.createUpdatedShowTime existing dto
          (VariantA.resolvedMovieId movieOpt existing)).start_time
        (VariantA.createUpdatedShowTime existing dto
          (VariantA.resolvedMovieId movieOpt existing)).end_time ≠ d →
      VariantA.updateShowTimeInfo s id dto = .error (.durationMismatch d
        (VariantA.calculateDuration
          (VariantA.createUpdatedShowTime existing dto
            (VariantA.resolvedMovieId movieOpt existing)).start_time
          (VariantA.createUpdatedShowTime existing dto
            (VariantA.resolvedMovieId movieOpt existing)).end_time))) := by
  refine ⟨addNewShowTime_ok_duration, ?_, updateShowTime_ok_duration, updateShowTime_mismatch⟩
  intro s dto m hm hdm
  constructor
  · intro s2 hok
    obtain ⟨m2, hm2, heq⟩ := addNewShowTime_ok_duration s dto s2 hok
    rw [hm] at hm2
    cases hm2
    exact hdm heq
  · intro hp hne hgt
    exact addNewShowTime_mismatch s dto m hm hp hne hgt hdm

/-- C2 witness: against a stored 120-minute movie, a 14:00-15:00 showtime is
rejected with expected 120, provided 60; a 14:00-16:00 one is accepted with
duration 120. -/
theorem c2_duration_must_match_witness :
    VariantA.addNewShowTime ⟨[⟨1, "m", "g", 120, 5, 2000⟩], [], []⟩
      ⟨"m", 2000, "t", "14:00", "15:00", 10⟩ =
      .error (.durationMismatch 120 60) ∧
    (∃ m, VariantA.fetchMovieByTitleAndReleaseYear
        ([⟨1, "m", "g", 120, 5, 2000⟩] : List VariantA.Movie) (normName "m") 2000 = some m ∧
      VariantA.calculateDuration "14:00" "16:00" = m.duration) := by
  constructor
  · have h := (c2_duration_must_match.2.1 ⟨[⟨1, "m", "g", 120, 5, 2000⟩], [], []⟩
      ⟨"m", 2000, "t", "14:00", "15:00", 10⟩ ⟨1, "m", "g", 120, 5, 2000⟩
      (by decide) (by decide)).2 (by decide) (by decide) (by decide)
    simpa using h
  · exact c2_duration_must_match.1 ⟨[⟨1, "m", "g", 120, 5, 2000⟩], [], []⟩
      ⟨"m", 2000, "t", "14:00", "16:00", 10⟩
      ⟨[⟨1, "m", "g", 120, 5, 2000⟩], [⟨1, 1, "t", "14:00", "16:00", 10⟩], []⟩ rfl

/-- C3: from any state whose tickets (bookings) have pairwise distinct seats
per showtime, any sequence of booking attempts preserves that invariant, in
both variants; and a request for a seat already occupied by any party, once
its showtime and movie resolve, is rejected with a BadRequest-class error and
inserts nothing (an error result carries no successor state). -/
theorem c3_seat_uniqueness_invariant :
    (∀ (s : VariantA.State) (reqs : List VariantA.CreateTicketDto),
      VariantA.seatsDistinct s.tickets →
      VariantA.seatsDistinct (VariantA.runTickets s reqs).tickets) ∧
    (∀ (s : VariantB.State) (reqs : List VariantB.BookingDto),
      VariantB.seatsDistinctB s.bookings →
      VariantB.seatsDistinctB (VariantB.runBookings s reqs).bookings) ∧
    (∀ (s : VariantA.State) (dto : VariantA.CreateTicketDto)
        (showTime : VariantA.ShowTime) (movie : VariantA.Movie),
      VariantA.findShowTimeByTheaterAndStartTime s.showtimes
        (normName dto.movie_theater) dto.movie_start_time = some showTime →
      VariantA.fetchMovieById s.movies showTime.movie_id = some movie →
      VariantA.isSeatTaken s.tickets showTime.id dto.seat_number = true →
      ∃ e, VariantA.addNewTicket s dto = .error e ∧ e.isBadRequest = true) ∧
    (∀ (s : VariantB.State) (dto : VariantB.BookingDto)
        (showtime : VariantB.ShowTime) (movie : VariantB.Movie),
      VariantB.fetchShowTimeById s.showtimes dto.showtimeId = some showtime →
      VariantB.fetchMovieById s.movies showtime.movieId = some movie →
      VariantB.isSeatTaken s.bookings dto.showtimeId dto.seatNumber = true →
      ∃ e, VariantB.addNewBooking s dto = .error e ∧ e.isBadRequest = true) :=
  ⟨runTickets_preserves, runBookings_preserves,
    addNewTicket_seat_occupied, addNewBooking_seat_occupied⟩

/-- C3 witness: booking seat 5 twice for the same showtime keeps seats
distinct, and a second request for the occupied seat 5 by another party is
rejected with a BadRequest-class error. -/
theorem c3_seat_uniqueness_invariant_witness :
    VariantA.seatsDistinct (VariantA.runTickets
      ⟨[⟨1, "m", "g", 120, 5, 2000⟩], [⟨1, 1, "a", "14:00", "16:00", 10⟩], []⟩
      [⟨"m", "a", "14:00", "c", 5⟩, ⟨"m", "a", "14:00", "d", 5⟩]).tickets ∧
    (∃ e, VariantA.addNewTicket
      ⟨[⟨1, "m", "g", 120, 5, 2000⟩], [⟨1, 1, "a", "14:00", "16:00", 10⟩],
        [⟨1, 1, 5, "c"⟩]⟩ ⟨"m", "a", "14:00", "d", 5⟩ = .error e ∧
      e.isBadRequest = true) := by
  constructor
  · exact c3_seat_uniqueness_invariant.1
      ⟨[⟨1, "m", "g", 120, 5, 2000⟩], [⟨1, 1, "a", "14:00", "16:00", 10⟩], []⟩
      [⟨"m", "a", "14:00", "c", 5⟩, ⟨"m", "a", "14:00", "d", 5⟩] List.Pairwise.nil
  · exact c3_seat_uniqueness_invariant.2.2.1
      ⟨[⟨1, "m", "g", 120, 5, 2000⟩], [⟨1, 1, "a", "14:00", "16:00", 10⟩], [⟨1, 1, 5, "c"⟩]⟩
      ⟨"m", "a", "14:00", "d", 5⟩ ⟨1, 1, "a", "14:00", "16:00", 10⟩ ⟨1, "m", "g", 120, 5, 2000⟩
      (by decide) (by decide) (by decide)

/-- C4: booking creation validates in the fixed fail-fast order - showtime
lookup (NotFound), referenced movie (NotFound), movie-title match (customer
variant only), capacity, duplicate party, seat taken - and when the requesting
party already holds the seat the duplicate-party error is raised, which is not
the seat-taken error.  Errors abort before the INSERT, so an error result
carries no successor state. -/
theorem c4_validation_order :
    (∀ (s : VariantA.State) (dto : VariantA.CreateTicketDto),
      VariantA.findShowTimeByTheaterAndStartTime s.showtimes
        (normName dto.movie_theater) dto.movie_start_time = none →
      VariantA.addNewTicket s dto =
        .error (.showtimeNotFound (normName dto.movie_theater) dto.movie_start_time)) ∧
    (∀ (s : VariantA.State) (dto : VariantA.CreateTicketDto) (showTime : VariantA.ShowTime),
      VariantA.findShowTimeByTheaterAndStartTime s.showtimes
        (normName dto.movie_theater) dto.movie_start_time = some showTime →
      VariantA.fetchMovieById s.movies showTime.movie_id = none →
      VariantA.addNewTicket s dto = .error (.movieNotFound showTime.movie_id)) ∧
    (∀ (s : VariantA.State) (dto : VariantA.CreateTicketDto)
        (showTime : VariantA.ShowTime) (movie : VariantA.Movie),
      VariantA.findShowTimeByTheaterAndStartTime s.showtimes
        (normName dto.movie_theater) dto.movie_start_time = some showTime →
      VariantA.fetchMovieById s.movies showTime.movie_id = some movie →
      normName movie.title ≠ normName dto.movie_title →
      VariantA.addNewTicket s dto = .error (.titleMismatch movie.title dto.movie_title)) ∧
    (∀ (s : VariantA.State) (dto : VariantA.CreateTicketDto)
        (showTime : VariantA.ShowTime) (movie : VariantA.Movie),
      VariantA.findShowTimeByTheaterAndStartTime s.showtimes
        (normName dto.movie_theater) dto.movie_start_time = some showTime →
      VariantA.fetchMovieById s.movies showTime.movie_id = some movie →
      normName movie.title = normName dto.movie_title →
      VariantA.isTheaterFull s.tickets showTime.id = true →
      VariantA.addNewTicket s dto = .error .theaterFull) ∧
    (∀ (s : VariantA.State) (dto : VariantA.CreateTicketDto)
        (showTime : VariantA.ShowTime) (movie : VariantA.Movie),
      VariantA.findShowTimeByTheaterAndStartTime s.showtimes
        (normName dto.movie_theater) dto.movie_start_time = some showTime →
      VariantA.fetchMovieById s.movies showTime.movie_id = some movie →
      normName movie.title = normName dto.movie_title →
      VariantA.isTheaterFull s.tickets showTime.id = false →
      (VariantA.getTicketsForShowTime s.tickets showTime.id).any
        (fun t => toLowerCase t.customer_name == normName dto.customer_name &&
          t.seat_number == dto.seat_number) = true →
      VariantA.addNewTicket s dto =
        .error (.duplicateCustomer dto.customer_name dto.seat_number) ∧
      VariantA.TicketErr.duplicateCustomer dto.customer_name dto.seat_number ≠
        .seatTaken dto.seat_number) ∧
    (∀ (s : VariantA.State) (dto : VariantA.CreateTicketDto)
        (showTime : VariantA.ShowTime) (movie : VariantA.Movie),
      VariantA.findShowTimeByTheaterAndStartTime s.showtimes
        (normName dto.movie_theater) dto.movie_start_time = some showTime →
      VariantA.fetchMovieById s.movies showTime.movie_id = some movie →
      normName movie.title = normName dto.movie_title →
      VariantA.isTheaterFull s.tickets showTime.id = false →
      (VariantA.getTicketsForShowTime s.tickets showTime.id).any
        (fun t => toLowerCase t.customer_name == normName dto.customer_name &&
          t.seat_number == dto.seat_number) = false →
      VariantA.isSeatTaken s.tickets showTime.id dto.seat_number = true →
      VariantA.addNewTicket s dto = .error (.seatTaken dto.seat_number)) ∧
    (∀ (s : VariantB.State) (dto : VariantB.BookingDto),
      VariantB.fetchShowTimeById s.showtimes dto.showtimeId = none →
      VariantB.addNewBooking s dto = .error (.showtimeNotFound dto.showtimeId)) ∧
    (∀ (s : VariantB.State) (dto : VariantB.BookingDto) (showtime : VariantB.ShowTime),
      VariantB.fetchShowTimeById s.showtimes dto.showtimeId = some showtime →
      VariantB.fetchMovieById s.movies showtime.movieId = none →
      VariantB.addNewBooking s dto = .error (.movieNotFound showtime.movieId)) ∧
    (∀ (s : VariantB.State) (dto : VariantB.BookingDto)
        (showtime : VariantB.ShowTime) (movie : VariantB.Movie),
      VariantB.fetchShowTimeById s.showtimes dto.showtimeId = some showtime →
      VariantB.fetchMovieById s.movies showtime.movieId = some movie →
      VariantB.isTheaterFull s.bookings dto.showtimeId = true →
      VariantB.addNewBooking s dto = .error .theaterFull) ∧
    (∀ (s : VariantB.State) (dto : VariantB.BookingDto)
        (showtime : VariantB.ShowTime) (movie : VariantB.Movie),
      VariantB.fetchShowTimeById s.showtimes dto.showtimeId = some showtime →
      VariantB.fetchMovieById s.movies showtime.movieId = some movie →
      VariantB.isTheaterFull s.bookings dto.showtimeId = false →
      (VariantB.getBookingsForShowTime s.bookings dto.showtimeId).any
        (fun b => b.userId == dto.userId && b.seatNumber == dto.seatNumber) = true →
      VariantB.addNewBooking s dto = .error (.duplicateUser dto.seatNumber) ∧
      VariantB.BookingErr.duplicateUser dto.seatNumber ≠ .seatTaken dto.seatNumber) ∧
    (∀ (s : VariantB.State) (dto : VariantB.BookingDto)
        (showtime : VariantB.ShowTime) (movie : VariantB.Movie),
      VariantB.fetchShowTimeById s.showtimes dto.showtimeId = some showtime →
      VariantB.fetchMovieById s.movies showtime.movieId = some movie →
      VariantB.isTheaterFull s.bookings dto.showtimeId = false →
      (VariantB.getBookingsForShowTime s.bookings dto.showtimeId).any
        (fun b => b.userId == dto.userId && b.seatNumber == dto.seatNumber) = false →
      VariantB.isSeatTaken s.bookings dto.showtimeId dto.seatNumber = true →
      VariantB.addNewBooking s dto = .error (.seatTaken dto.seatNumber)) := by
  refine ⟨ticket_order1, ticket_order2, ticket_order3, ticket_order4, ?_, ticket_order6,
    booking_order1, booking_order2, booking_order3, ?_, booking_order5⟩
  · intro s dto showTime movie h1 h2 h3 h4 h5
    exact ⟨ticket_order5 s dto showTime movie h1 h2 h3 h4 h5, by simp⟩
  · intro s dto showtime movie h1 h2 h4 h5
    exact ⟨booking_order4 s dto showtime movie h1 h2 h4 h5, by simp⟩

/-- C4 witness: a party that already holds seat 5 and requests seat 5 again,
against a resolvable showtime and movie with free capacity, receives the
duplicate-party error rather than the seat-taken error. -/
theorem c4_validation_order_witness :
    VariantA.addNewTicket
      ⟨[⟨1, "m", "g", 120, 5, 2000⟩], [⟨1, 1, "a", "14:00", "16:00", 10⟩], [⟨1, 1, 5, "c"⟩]⟩
      ⟨"m", "a", "14:00", "c", 5⟩ = .error (.duplicateCustomer "c" 5) ∧
    VariantA.TicketErr.duplicateCustomer "c" 5 ≠ .seatTaken 5 :=
  c4_validation_order.2.2.2.2.1
    ⟨[⟨1, "m", "g", 120, 5, 2000⟩], [⟨1, 1, "a", "14:00", "16:00", 10⟩], [⟨1, 1, 5, "c"⟩]⟩
    ⟨"m", "a", "14:00", "c", 5⟩ ⟨1, 1, "a", "14:00", "16:00", 10⟩ ⟨1, "m", "g", 120, 5, 2000⟩
    (by decide) (by decide) (by decide) (by decide) (by decide)

/-- C5 amended: the userId variant rejects a booking with the theater-full
BadRequest whenever the count of bookings for the showtime is at least 100;
the customer-name variant tests the count with equality, so it raises the
theater-full BadRequest exactly at count 100 (see the counterexample at count
101). -/
theorem c5_capacity_check :
    (∀ (s : VariantB.State) (dto : VariantB.BookingDto)
        (showtime : VariantB.ShowTime) (movie : VariantB.Movie),
      VariantB.fetchShowTimeById s.showtimes dto.showtimeId = some showtime →
      VariantB.fetchMovieById s.movies showtime.movieId = some movie →
      100 ≤ VariantB.bookingCountFor s.bookings dto.showtimeId →
      VariantB.addNewBooking s dto = .error .theaterFull) ∧
    (∀ (s : VariantA.State) (dto : VariantA.CreateTicketDto)
        (showTime : VariantA.ShowTime) (movie : VariantA.Movie),
      VariantA.findShowTimeByTheaterAndStartTime s.showtimes
        (normName dto.movie_theater) dto.movie_start_time = some showTime →
      VariantA.fetchMovieById s.movies showTime.movie_id = some movie →
      normName movie.title = normName dto.movie_title →
      VariantA.ticketCountFor s.tickets showTime.id = 100 →
      VariantA.addNewTicket s dto = .error .theaterFull) := by
  constructor
  · intro s dto showtime movie h1 h2 hcount
    refine booking_order3 s dto showtime movie h1 h2 ?_
    rw [VariantB.isTheaterFull]
    exact decide_eq_true hcount
  · intro s dto showTime movie h1 h2 h3 hcount
    refine ticket_order4 s dto showTime movie h1 h2 h3 ?_
    simp [VariantA.isTheaterFull, hcount]

/-- C5 counterexample: in the customer-name variant, a showtime that already
has 101 tickets (count at least 100) still accepts a new booking, because the
full check compares the count with 100 by equality. -/
theorem c5_capacity_counterexample :
    100 ≤ VariantA.ticketCountFor ((List.range 101).map fun i =>
      (⟨1, 1, (i : Int) + 1, "u"⟩ : VariantA.Ticket)) 1 ∧
    (VariantA.addNewTicket
      ⟨[⟨1, "m", "g", 120, 5, 2000⟩], [⟨1, 1, "a", "14:00", "16:00", 10⟩],
        (List.range 101).map fun i => (⟨1, 1, (i : Int) + 1, "u"⟩ : VariantA.Ticket)⟩
      ⟨"m", "a", "14:00", "c", 200⟩).isOk = true := by
  constructor
  · decide
  · rfl

/-- C5 witness: with exactly 100 bookings the userId variant rejects with the
theater-full error, and with exactly 100 tickets so does the customer-name
variant. -/
theorem c5_capacity_check_witness :
    VariantB.addNewBooking
      ⟨[⟨1, "m", "g", 120, 5, 2000⟩], [⟨1, 1, "a", "14:00", "16:00", 10⟩],
        (List.range 100).map fun i => (⟨1, (i : Int) + 1, "u"⟩ : VariantB.Booking)⟩
      ⟨"v", 1, 200⟩ = .error .theaterFull ∧
    VariantA.addNewTicket
      ⟨[⟨1, "m", "g", 120, 5, 2000⟩], [⟨1, 1, "a", "14:00", "16:00", 10⟩],
        (List.range 100).map fun i => (⟨1, 1, (i : Int) + 1, "u"⟩ : VariantA.Ticket)⟩
      ⟨"m", "a", "14:00", "c", 200⟩ = .error .theaterFull := by
  constructor
  · exact c5_capacity_check.1
      ⟨[⟨1, "m", "g", 120, 5, 2000⟩], [⟨1, 1, "a", "14:00", "16:00", 10⟩],
        (List.range 100).map fun i => (⟨1, (i : Int) + 1, "u"⟩ : VariantB.Booking)⟩
      ⟨"v", 1, 200⟩ ⟨1, 1, "a", "14:00", "16:00", 10⟩ ⟨1, "m", "g", 120, 5, 2000⟩
      (by decide) (by decide) (by decide)
  · exact c5_capacity_check.2
      ⟨[⟨1, "m", "g", 120, 5, 2000⟩], [⟨1, 1, "a", "14:00", "16:00", 10⟩],
        (List.range 100).map fun i => (⟨1, 1, (i : Int) + 1, "u"⟩ : VariantA.Ticket)⟩
      ⟨"m", "a", "14:00", "c", 200⟩ ⟨1, 1, "a", "14:00", "16:00", 10⟩ ⟨1, "m", "g", 120, 5, 2000⟩
      (by decide) (by decide) (by decide) (by decide)

/-- C6 amended: when the merged record changes the theater, start or end, the
update re-runs the overlap check and fails with BadRequest exactly when some
row of the show_time table - including the row being updated itself, since the
query of this variant excludes no id - in the same lowercased theater overlaps
the new window. -/
theorem c6_update_overlap_no_self_exclusion :
    ∀ (s : VariantA.State) (id : Nat) (dto : VariantA.UpdateShowTimeDto)
      (existing : VariantA.ShowTime) (movieOpt : Option VariantA.Movie) (d : Int),
      id ≠ 0 →
      VariantA.fetchShowTimeById s.showtimes id = some existing →
      VariantA.validateMovie s.movies dto = .ok movieOpt →
      VariantA.resolvedDuration s.movies movieOpt existing = some d →
      d ≠ 0 →
      (match dto.price with | some p => decide (p ≤ 0) | none => false) = false →
      VariantA.validateTimeLogic
        (VariantA.createUpdatedShowTime existing dto
          (VariantA.resolvedMovieId movieOpt existing)).start_time
        (VariantA.createUpdatedShowTime existing dto
          (VariantA.resolvedMovieId movieOpt existing)).end_time d = .ok () →
      (VariantA.updateShowTimeInfo s id dto = .error .updateOverlap ↔
        (((VariantA.createUpdatedShowTime existing dto
            (VariantA.resolvedMovieId movieOpt existing)).start_time != existing.start_time ||
          (VariantA.createUpdatedShowTime existing dto
            (VariantA.resolvedMovieId movieOpt existing)).end_time != existing.end_time ||
          (VariantA.createUpdatedShowTime existing dto
            (VariantA.resolvedMovieId movieOpt existing)).theater != existing.theater) = true ∧
         ∃ st ∈ s.showtimes,
           toLowerCase st.theater = toLowerCase (VariantA.createUpdatedShowTime existing dto
             (VariantA.resolvedMovieId movieOpt existing)).theater ∧
           VariantA.overlapsRow
             (VariantA.createUpdatedShowTime existing dto
               (VariantA.resolvedMovieId movieOpt existing)).start_time
             (VariantA.createUpdatedShowTime existing dto
               (VariantA.resolvedMovieId movieOpt existing)).end_time st = true)) := by
  intro s id dto existing movieOpt d hid hex hvm hdur hd0 hpr hvt
  rw [updateShowTime_after_validation s id dto existing movieOpt d hid hex hvm hdur hd0 hpr hvt]
  rw [VariantA.hasOverLappingShowTime]
  split_ifs with hc
  · apply iff_of_true rfl
    rw [Bool.and_eq_true, List.any_eq_true] at hc
    obtain ⟨hch, hov⟩ := hc
    obtain ⟨st, hmem, hpred⟩ := hov
    simp only [Bool.and_eq_true, beq_iff_eq] at hpred
    exact ⟨hch, st, hmem, hpred.1, hpred.2⟩
  · apply iff_of_false
    · simp
    · rintro ⟨hch, st, hmem, hth, hovr⟩
      apply hc
      rw [Bool.and_eq_true]
      refine ⟨hch, ?_⟩
      rw [List.any_eq_true]
      exact ⟨st, hmem, by simp [beq_iff_eq, hth, hovr]⟩

/-- C6 counterexample: a table holding only the row being updated (id 1): per
the claim the overlap check should exclude the row itself and the update of
its window from 14:00-16:00 to 15:00-17:00 should not report an overlap, yet
the code rejects it with the overlap BadRequest, because the old row overlaps
the new window. -/
theorem c6_counterexample :
    (∀ st ∈ ([⟨1, 1, "a", "14:00", "16:00", 10⟩] : List VariantA.ShowTime), st.id = 1) ∧
    VariantA.updateShowTimeInfo
      ⟨[⟨1, "m", "g", 120, 5, 2000⟩], [⟨1, 1, "a", "14:00", "16:00", 10⟩], []⟩ 1
      { start_time := some "15:00", end_time := some "17:00" } = .error .updateOverlap := by
  constructor
  · decide
  · rfl

/-- C6 witness: the amended equivalence instantiated at the counterexample
state: the update is rejected because the stored row itself overlaps. -/
theorem c6_update_overlap_no_self_exclusion_witness :
    VariantA.updateShowTimeInfo
      ⟨[⟨1, "m", "g", 120, 5, 2000⟩], [⟨1, 1, "a", "14:00", "16:00", 10⟩], []⟩ 1
      { start_time := some "15:00", end_time := some "17:00" } = .error .updateOverlap :=
  (c6_update_overlap_no_self_exclusion
    ⟨[⟨1, "m", "g", 120, 5, 2000⟩], [⟨1, 1, "a", "14:00", "16:00", 10⟩], []⟩ 1
    { start_time := some "15:00", end_time := some "17:00" }
    ⟨1, 1, "a", "14:00", "16:00", 10⟩ none 120
    (by decide) (by decide) rfl rfl (by decide) (by decide) rfl).mpr
    ⟨by decide, ⟨1, 1, "a", "14:00", "16:00", 10⟩, by decide, by decide, by decide⟩

/-- C7 amended: an update that changes only the theater, with start and end
unchanged, does NOT skip the overlap check: the changedTime guard also fires
on a theater change, so the update is rejected with the overlap BadRequest
exactly when some row of the new theater overlaps the unchanged window. -/
theorem c7_theater_only_update_checks_overlap :
    ∀ (s : VariantA.State) (id : Nat) (dto : VariantA.UpdateShowTimeDto) (t : String)
      (existing : VariantA.ShowTime) (movieOpt : Option VariantA.Movie) (d : Int),
      dto.theater = some t →
      dto.start_time = none →
      dto.end_time = none →
      dto.price = none →
      normName t ≠ existing.theater →
      id ≠ 0 →
      VariantA.fetchShowTimeById s.showtimes id = some existing →
      VariantA.validateMovie s.movies dto = .ok movieOpt →
      VariantA.resolvedDuration s.movies movieOpt existing = some d →
      d ≠ 0 →
      VariantA.validateTimeLogic existing.start_time existing.end_time d = .ok () →
      (VariantA.updateShowTimeInfo s id dto = .error .updateOverlap ↔
        ∃ st ∈ s.showtimes, toLowerCase st.theater = toLowerCase (normName t) ∧
          VariantA.overlapsRow existing.start_time existing.end_time st = true) := by
  intro s id dto t existing movieOpt d ht hs he hp hneq hid hex hvm hdur hd0 hvt
  have hpr : (match dto.price with | some p => decide (p ≤ 0) | none => false) = false := by
    rw [hp]
  have hu : VariantA.createUpdatedShowTime existing dto
      (VariantA.resolvedMovieId movieOpt existing) =
      ⟨existing.id, VariantA.resolvedMovieId movieOpt existing, normName t,
        existing.start_time, existing.end_time, existing.price⟩ := by
    simp [VariantA.createUpdatedShowTime, ht, hs, he, hp]
  rw [updateShowTime_after_validation s id dto existing movieOpt d hid hex hvm hdur hd0 hpr
    (by rw [hu]; exact hvt)]
  rw [hu, VariantA.hasOverLappingShowTime]
  dsimp only
  have hbne : (normName t != existing.theater) = true := by
    rw [bne_iff_ne]
    exact hneq
  simp only [bne_self_eq_false, Bool.false_or, hbne, Bool.true_and]
  split_ifs with hc
  · apply iff_of_true rfl
    rw [List.any_eq_true] at hc
    obtain ⟨st, hmem, hpred⟩ := hc
    simp only [Bool.and_eq_true, beq_iff_eq] at hpred
    exact ⟨st, hmem, hpred.1, hpred.2⟩
  · apply iff_of_false
    · simp
    · rintro ⟨st, hmem, hth, hovr⟩
      apply hc
      rw [List.any_eq_true]
      exact ⟨st, hmem, by simp [beq_iff_eq, hth, hovr]⟩

/-- C7 counterexample: moving showtime 1 from theater a to theater b without
touching its 14:00-16:00 window is rejected with the overlap BadRequest
because theater b already has an overlapping row - the claim says the overlap
check is skipped and the update succeeds. -/
theorem c7_counterexample :
    VariantA.updateShowTimeInfo
      ⟨[⟨1, "m", "g", 120, 5, 2000⟩],
        [⟨1, 1, "a", "14:00", "16:00", 10⟩, ⟨2, 1, "b", "14:00", "16:00", 10⟩], []⟩ 1
      { theater := some "b" } = .error .updateOverlap ∧
    ({ theater := some "b" } : VariantA.UpdateShowTimeDto).start_time = none ∧
    ({ theater := some "b" } : VariantA.UpdateShowTimeDto).end_time = none := by
  refine ⟨rfl, rfl, rfl⟩

/-- C7 witness: the amended equivalence instantiated at the counterexample
state: the theater-only update is rejected because row 2 of theater b
overlaps the unchanged window. -/
theorem c7_theater_only_update_checks_overlap_witness :
    VariantA.updateShowTimeInfo
      ⟨[⟨1, "m", "g", 120, 5, 2000⟩],
        [⟨1, 1, "a", "14:00", "16:00", 10⟩, ⟨2, 1, "b", "14:00", "16:00", 10⟩], []⟩ 1
      { theater := some "b" } = .error .updateOverlap :=
  (c7_theater_only_update_checks_overlap
    ⟨[⟨1, "m", "g", 120, 5, 2000⟩],
      [⟨1, 1, "a", "14:00", "16:00", 10⟩, ⟨2, 1, "b", "14:00", "16:00", 10⟩], []⟩ 1
    { theater := some "b" } "b" ⟨1, 1, "a", "14:00", "16:00", 10⟩ none 120
    rfl rfl rfl rfl (by decide) (by decide) (by decide) rfl rfl (by decide) rfl).mpr
    ⟨⟨2, 1, "b", "14:00", "16:00", 10⟩, by decide, by decide, by decide⟩

/-- C8 amended: in the title-identity variant, an update whose payload changes
the normalized title fails with the duplicate-title BadRequest when the new
normalized title resolves to an existing movie, and persists the merged,
normalized fields otherwise; an unchanged normalized title skips the collision
check and persists.  The id-identity variant performs no collision check at
all (see the counterexample). -/
theorem c8_update_title_collision :
    (∀ (s : VariantB.State) (title : String) (dto : VariantB.MovieDto)
        (m0 m2 : VariantB.Movie),
      VariantB.findMovieByTitle s.movies (normName title) = some m0 →
      normName dto.title ≠ normName title →
      VariantB.findMovieByTitle s.movies (normName dto.title) = some m2 →
      VariantB.updateMovieInfo s title dto =
        .error (.duplicateTitle (normName dto.title))) ∧
    (∀ (s : VariantB.State) (title : String) (dto : VariantB.MovieDto)
        (m0 : VariantB.Movie),
      VariantB.findMovieByTitle s.movies (normName title) = some m0 →
      normName dto.title ≠ normName title →
      VariantB.findMovieByTitle s.movies (normName dto.title) = none →
      VariantB.updateMovieInfo s title dto =
        .ok { s with movies := (VariantB.updateMovieInfoRows s.movies (normName title)
          (some (normName dto.title)) (some (normName dto.genre))
          (some dto.duration) (some dto.rating) (some dto.releaseYear)) }) ∧
    (∀ (s : VariantB.State) (title : String) (dto : VariantB.MovieDto)
        (m0 : VariantB.Movie),
      VariantB.findMovieByTitle s.movies (normName title) = some m0 →
      normName dto.title = normName title →
      VariantB.updateMovieInfo s title dto =
        .ok { s with movies := (VariantB.updateMovieInfoRows s.movies (normName title)
          (some (normName dto.title)) (some (normName dto.genre))
          (some dto.duration) (some dto.rating) (some dto.releaseYear)) }) := by
  refine ⟨?_, ?_, ?_⟩
  · intro s title dto m0 m2 hex hchange hdup
    simp only [VariantB.updateMovieInfo, hex, if_pos hchange, hdup]
  · intro s title dto m0 hex hchange hdup
    simp only [VariantB.updateMovieInfo, hex, if_pos hchange, hdup]
  · intro s title dto m0 hex hsame
    simp only [VariantB.updateMovieInfo, hex, if_neg (not_not.mpr hsame)]

/-- C8 counterexample: in the id-identity variant, renaming movie 1 to the
title already held by a different movie (id 2) is accepted and persisted -
there is no Conflict-class rejection, contradicting the claim for this
variant. -/
theorem c8_counterexample :
    VariantA.updateMovieInfo
      ⟨[⟨1, "a", "g", 100, 5, 2000⟩, ⟨2, "b", "g", 100, 5, 2001⟩], [], []⟩ 1
      { title := some "b" } =
      .ok ⟨[⟨1, "b", "g", 100, 5, 2000⟩, ⟨2, "b", "g", 100, 5, 2001⟩], [], []⟩ ∧
    normName "b" = VariantA.Movie.title ⟨2, "b", "g", 100, 5, 2001⟩ ∧ (2 : Nat) ≠ 1 := by
  refine ⟨rfl, rfl, by decide⟩

/-- C8 witness: renaming movie old to the normalized title of the existing
movie taken is rejected with the duplicate-title error in the title-identity
variant. -/
theorem c8_update_title_collision_witness :
    VariantB.updateMovieInfo
      ⟨[⟨1, "old", "g", 100, 5, 2000⟩, ⟨2, "taken", "g", 100, 5, 2001⟩], [], []⟩
      "old" ⟨"taken", "g", 100, 5, 2001⟩ = .error (.duplicateTitle (normName "taken")) :=
  c8_update_title_collision.1
    ⟨[⟨1, "old", "g", 100, 5, 2000⟩, ⟨2, "taken", "g", 100, 5, 2001⟩], [], []⟩
    "old" ⟨"taken", "g", 100, 5, 2001⟩ ⟨1, "old", "g", 100, 5, 2000⟩
    ⟨2, "taken", "g", 100, 5, 2001⟩ (by decide) (by decide) (by decide)

/-- C9: after addNewMovie accepts a title, looking the catalog up with any
string having the same trimmed, lowercased form resolves exactly the record
just stored, whose title is the normalized form of the submitted title. -/
theorem c9_normalization_roundtrip :
    ∀ (s s2 : VariantB.State) (dto : VariantB.MovieDto) (query : String),
      VariantB.addNewMovie s dto = .ok s2 →
      normName query = normName dto.title →
      VariantB.findMovieByTitle s2.movies query =
        some ⟨VariantB.nextMovieId s.movies, trimString (normName dto.title),
          trimString (normName dto.genre), dto.duration, dto.rating, dto.releaseYear⟩ := by
  intro s s2 dto query hok hq
  simp only [VariantB.addNewMovie] at hok
  rcases hfind : VariantB.findMovieByTitle s.movies (normName dto.title) with _ | m
  · simp only [hfind] at hok
    cases hok
    rw [VariantB.findMovieByTitle, List.find?_append]
    have h1 : s.movies.find?
        (fun m => toLowerCase m.title == toLowerCase (trimString query)) = none := by
      rw [List.find?_eq_none]
      intro m hm hcontra
      rw [VariantB.findMovieByTitle, List.find?_eq_none] at hfind
      apply hfind m hm
      rw [trimString_normName, toLowerCase_normName, ← hq]
      exact hcontra
    rw [h1]
    have h2 : (toLowerCase (trimString (normName dto.title)) ==
        toLowerCase (trimString query)) = true := by
      rw [trimString_normName, toLowerCase_normName, ← hq]
      exact beq_self_eq_true (normName query)
    have h3 : List.find? (fun m => toLowerCase m.title == toLowerCase (trimString query))
        [(⟨VariantB.nextMovieId s.movies, trimString (normName dto.title),
          trimString (normName dto.genre), dto.duration, dto.rating, dto.releaseYear⟩ :
          VariantB.Movie)] =
        some ⟨VariantB.nextMovieId s.movies, trimString (normName dto.title),
          trimString (normName dto.genre), dto.duration, dto.rating, dto.releaseYear⟩ :=
      List.find?_cons_of_pos _ h2
    rw [h3]
    rfl
  · rw [hfind] at hok
    cases hok

/-- C9 witness: adding a movie titled with surrounding blanks and mixed case
and fetching by the plain lowercase title returns the stored record. -/
theorem c9_normalization_roundtrip_witness :
    VariantB.findMovieByTitle
      [⟨1, "inception", "sci-fi", 148, 8, 2010⟩] "inception" =
      some ⟨1, "inception", "sci-fi", 148, 8, 2010⟩ := by
  have h := c9_normalization_roundtrip ⟨[], [], []⟩
    ⟨[⟨1, "inception", "sci-fi", 148, 8, 2010⟩], [], []⟩
    ⟨"  InCePtIoN  ", " Sci-Fi ", 148, 8, 2010⟩ "inception" rfl (by decide)
  simpa using h
